import Mathlib

/-!
Verification development for the SwiftTrack middleware order service
(`src/services/order-service/index.js` and the `@swifttrack/database`
`OrderRepository`).  The JavaScript is shallowly embedded: timestamps
(`Date.now()`) become explicit `Nat` clock values threaded through the
functions, the mutable per-service circuit-breaker entry becomes a
`ServiceHealth` value returned by each operation, the recursive
`callServiceWithRetry` becomes a fuel-indexed structural recursion whose
fuel is always sufficient, and the background saga processor becomes a
deterministic function from adapter behaviours to the final system state
(persisted statuses, emitted events, compensation log, adapter call
counts).
-/

namespace SwiftTrack

/-! ## Constants (order-service/index.js lines 85-88) -/

def CIRCUIT_BREAKER_THRESHOLD : Nat := 3

def CIRCUIT_BREAKER_TIMEOUT : Nat := 30000

def MAX_RETRY_ATTEMPTS : Nat := 5

def RETRY_DELAY_MS : Nat := 2000

/-! ## Circuit breaker state (order-service/index.js lines 78-139)

One entry of the `serviceHealth` map.  `lastFailure` is the millisecond
timestamp of the last recorded failure (`null` initially, hence
`Option Nat`; JavaScript arithmetic coerces `null` to `0`, modelled by
`Option.getD 0`). -/

structure ServiceHealth where
  available : Bool
  lastFailure : Option Nat
  consecutiveFailures : Nat
deriving DecidableEq

def initialHealth : ServiceHealth :=
  { available := true, lastFailure := none, consecutiveFailures := 0 }

/-- `isServiceAvailable` (lines 102-113): if the entry is marked
unavailable and more than `CIRCUIT_BREAKER_TIMEOUT` ms have passed since
the last failure, reset to available with zero consecutive failures
(`lastFailure` is left unchanged); return the availability flag together
with the (possibly reset) entry. -/
def isServiceAvailable (time : Nat) (h : ServiceHealth) : Bool × ServiceHealth :=
  if h.available then
    (true, h)
  else if time - h.lastFailure.getD 0 > CIRCUIT_BREAKER_TIMEOUT then
    (true, { h with available := true, consecutiveFailures := 0 })
  else
    (false, h)

/-- `recordServiceFailure` (lines 115-127): increment the consecutive
failure count, stamp `lastFailure` with the current time, and open the
circuit once the count reaches the threshold. -/
def recordServiceFailure (time : Nat) (h : ServiceHealth) : ServiceHealth :=
  let h1 : ServiceHealth :=
    { h with consecutiveFailures := h.consecutiveFailures + 1, lastFailure := some time }
  if CIRCUIT_BREAKER_THRESHOLD ≤ h1.consecutiveFailures then
    { h1 with available := false }
  else
    h1

/-- `recordServiceSuccess` (lines 129-139). -/
def recordServiceSuccess (_h : ServiceHealth) : ServiceHealth :=
  { available := true, lastFailure := none, consecutiveFailures := 0 }

/-! ## Circuit-breaker call traces (for the reachable-state invariant)

A trace interleaves the three operations at explicit clock times; the
passage of time without a call does not change the stored entry, exactly
as in the JavaScript (the reset is performed lazily inside
`isServiceAvailable`). -/

inductive BreakerOp where
  | success
  | failure
  | check
deriving DecidableEq

def applyBreakerOp (h : ServiceHealth) : Nat × BreakerOp → ServiceHealth
  | (_, .success) => recordServiceSuccess h
  | (t, .failure) => recordServiceFailure t h
  | (t, .check) => (isServiceAvailable t h).2

def runBreaker (ops : List (Nat × BreakerOp)) : ServiceHealth :=
  ops.foldl applyBreakerOp initialHealth

/-! ## Retry executor: `callServiceWithRetry` (order-service/index.js lines 142-224)

A downstream adapter call is modelled by `op : Nat → Option AdapterError`:
`op retryCount = none` means the attempt at that retry count would
succeed, `some e` means it would throw an error carrying the optional
`errorType` / `suggestedAction` fields of the enhanced adapter errors.
When the circuit breaker reports the service unavailable the adapter is
not invoked at all and the thrown circuit-open `Error` has neither field.

Each recursion level makes one attempt: check the breaker, call the
adapter if allowed, record success or failure, and on failure either
sleep `RETRY_DELAY_MS * 2 ^ retryCount` (the clock advances by exactly
that amount; a retry-scheduled event is emitted first) and recurse with
`retryCount + 1`, or — once `retryCount < MAX_RETRY_ATTEMPTS` fails —
produce the terminal error carrying the service id and
`retryCount + 1` as the total attempt count.

The JavaScript recursion increments `retryCount` from its starting value
up to at most `MAX_RETRY_ATTEMPTS`; the embedding makes this structural
with a `fuel` argument.  The wrapper `callServiceWithRetry` supplies
`MAX_RETRY_ATTEMPTS + 1` fuel, which is never exhausted (the fuel-zero
branch duplicates the terminal branch and is unreachable from the
wrapper, see `callRetryAux_congr`). -/

/-- JavaScript `String.prototype.toUpperCase` for the service ids
(character-wise uppercase). -/
def jsUpper (s : String) : String := ⟨s.data.map Char.toUpper⟩

structure AdapterError where
  errorType : Option String
  suggestedAction : Option String
deriving DecidableEq

/-- The error thrown after the retry budget is exhausted (lines 205-221):
it carries the failed service id, the total attempts made
(`retryAttempts = retryCount + 1`), and the last underlying error's
classification fields. -/
structure TerminalError where
  serviceName : String
  retryAttempts : Nat
  errorType : Option String
  suggestedAction : Option String
deriving DecidableEq

/-- Everything observable about one `callServiceWithRetry` invocation:
the result (`Except` the terminal error; a success carries the retry
count at which the adapter call succeeded), the circuit-breaker entry
and clock afterwards, the total number of attempts, the number of times
the downstream adapter was actually invoked, the backoff delays slept
(in order), and the names of the retry-scheduled events emitted. -/
structure RetryOutcome where
  result : Except TerminalError Nat
  health : ServiceHealth
  time : Nat
  attempts : Nat
  downstreamCalls : Nat
  delays : List Nat
  events : List String

def callRetryAux (sid : String) (op : Nat → Option AdapterError) :
    Nat → ServiceHealth → Nat → Nat → RetryOutcome
  | fuel, h, t, retryCount =>
    let checked := isServiceAvailable t h
    -- the error observed by this attempt: the adapter's error when the
    -- call goes through, or the plain circuit-open `Error` otherwise
    let attemptError : Option AdapterError :=
      if checked.1 then op retryCount else some { errorType := none, suggestedAction := none }
    match attemptError with
    | none =>
        { result := .ok retryCount, health := recordServiceSuccess checked.2, time := t,
          attempts := 1, downstreamCalls := 1, delays := [], events := [] }
    | some e =>
        let h2 := recordServiceFailure t checked.2
        let ds : Nat := if checked.1 then 1 else 0
        if retryCount < MAX_RETRY_ATTEMPTS then
          match fuel with
          | 0 =>
              -- out of fuel: never reached when fuel > MAX_RETRY_ATTEMPTS - retryCount
              { result := .error { serviceName := sid, retryAttempts := retryCount + 1,
                                   errorType := e.errorType,
                                   suggestedAction := e.suggestedAction },
                health := h2, time := t, attempts := 1, downstreamCalls := ds,
                delays := [], events := [] }
          | fuel' + 1 =>
              let d := RETRY_DELAY_MS * 2 ^ retryCount
              let rest := callRetryAux sid op fuel' h2 (t + d) (retryCount + 1)
              { result := rest.result, health := rest.health, time := rest.time,
                attempts := 1 + rest.attempts, downstreamCalls := ds + rest.downstreamCalls,
                delays := d :: rest.delays,
                events := (jsUpper sid ++ "_RETRY_SCHEDULED") :: rest.events }
        else
          { result := .error { serviceName := sid, retryAttempts := retryCount + 1,
                               errorType := e.errorType,
                               suggestedAction := e.suggestedAction },
            health := h2, time := t, attempts := 1, downstreamCalls := ds,
            delays := [], events := [] }

def callServiceWithRetry (sid : String) (op : Nat → Option AdapterError)
    (h : ServiceHealth) (t : Nat) (retryCount : Nat) : RetryOutcome :=
  callRetryAux sid op (MAX_RETRY_ATTEMPTS + 1) h t retryCount

/-- The backoff delays slept when every attempt from retry count `rc` on
fails: `RETRY_DELAY_MS * 2 ^ i` for `i = rc, ..., MAX_RETRY_ATTEMPTS - 1`. -/
def backoffDelays (rc : Nat) : List Nat :=
  (List.range (MAX_RETRY_ATTEMPTS - rc)).map (fun i => RETRY_DELAY_MS * 2 ^ (rc + i))

theorem backoffDelays_cons (rc : Nat) (hrc : rc < MAX_RETRY_ATTEMPTS) :
    backoffDelays rc = RETRY_DELAY_MS * 2 ^ rc :: backoffDelays (rc + 1) := by
  have h5 : MAX_RETRY_ATTEMPTS - rc = (MAX_RETRY_ATTEMPTS - (rc + 1)) + 1 := by omega
  rw [backoffDelays, h5, List.range_succ_eq_map]
  simp only [List.map_cons, List.map_map, Nat.add_zero]
  refine congrArg₂ _ rfl ?_
  rw [backoffDelays]
  refine List.map_congr_left ?_
  intro i _
  simp only [Function.comp_apply]
  have hix : rc + Nat.succ i = rc + 1 + i := by omega
  rw [hix]

/-- The fuel argument of `callRetryAux` is irrelevant as long as it is at
least the number of retries that can still happen, so the wrapper's fixed
`MAX_RETRY_ATTEMPTS + 1` budget never runs out. -/
theorem callRetryAux_congr (sid : String) (op : Nat → Option AdapterError) :
    ∀ f1 f2 h t rc, MAX_RETRY_ATTEMPTS - rc ≤ f1 → MAX_RETRY_ATTEMPTS - rc ≤ f2 →
      callRetryAux sid op f1 h t rc = callRetryAux sid op f2 h t rc := by
  intro f1
  induction f1 with
  | zero =>
      intro f2 h t rc hf1 _
      have hrc : ¬ rc < MAX_RETRY_ATTEMPTS := by omega
      cases f2 with
      | zero => rfl
      | succ f2' =>
          unfold callRetryAux
          simp only [hrc, if_false]
  | succ f1' ih =>
      intro f2 h t rc hf1 hf2
      by_cases hrc : rc < MAX_RETRY_ATTEMPTS
      · cases f2 with
        | zero => omega
        | succ f2' =>
            unfold callRetryAux
            simp only [hrc, if_true]
            rw [ih f2' _ _ _ (by omega) (by omega)]
      · cases f2 with
        | zero =>
            unfold callRetryAux
            simp only [hrc, if_false]
        | succ f2' =>
            unfold callRetryAux
            simp only [hrc, if_false]

/-- Behaviour of the retry executor against an operation that fails on
every attempt: starting from retry count `rc ≤ MAX_RETRY_ATTEMPTS` it makes
`MAX_RETRY_ATTEMPTS + 1 - rc` attempts, sleeps exactly the exponential
backoff delays, and ends in a terminal error carrying the service id and
`MAX_RETRY_ATTEMPTS + 1` total attempts — regardless of the circuit-breaker
state or the clock. -/
theorem callRetryAux_allFail (sid : String) (op : Nat → Option AdapterError)
    (hop : ∀ i, (op i).isSome) :
    ∀ fuel h t rc, MAX_RETRY_ATTEMPTS - rc ≤ fuel → rc ≤ MAX_RETRY_ATTEMPTS →
      (callRetryAux sid op fuel h t rc).attempts = MAX_RETRY_ATTEMPTS + 1 - rc ∧
      (callRetryAux sid op fuel h t rc).delays = backoffDelays rc ∧
      ∃ e, (callRetryAux sid op fuel h t rc).result = .error e ∧
        e.serviceName = sid ∧ e.retryAttempts = MAX_RETRY_ATTEMPTS + 1 := by
  intro fuel
  induction fuel with
  | zero =>
      intro h t rc hf hrc5
      have hrc : rc = MAX_RETRY_ATTEMPTS := by omega
      subst hrc
      obtain ⟨e, he⟩ := Option.isSome_iff_exists.mp (hop MAX_RETRY_ATTEMPTS)
      have hlt : ¬ MAX_RETRY_ATTEMPTS < MAX_RETRY_ATTEMPTS := by omega
      unfold callRetryAux
      cases hc : (isServiceAvailable t h).1 <;>
        simp [hc, he, hlt, backoffDelays]
  | succ fuel' ih =>
      intro h t rc hf hrc5
      by_cases hrc : rc < MAX_RETRY_ATTEMPTS
      · obtain ⟨e, he⟩ := Option.isSome_iff_exists.mp (hop rc)
        obtain ⟨ha, hd, hee⟩ := ih (recordServiceFailure t (isServiceAvailable t h).2)
          (t + RETRY_DELAY_MS * 2 ^ rc) (rc + 1) (by omega) (by omega)
        unfold callRetryAux
        cases hc : (isServiceAvailable t h).1
        · refine ⟨?_, ?_, ?_⟩
          · simp only [hc, he, hrc, if_true]
            simp [ha]
            omega
          · simp only [hc, he, hrc, if_true]
            simp [hd, backoffDelays_cons rc hrc]
          · simp only [hc, he, hrc, if_true]
            simpa using hee
        · refine ⟨?_, ?_, ?_⟩
          · simp only [hc, he, hrc, if_true]
            simp [ha]
            omega
          · simp only [hc, he, hrc, if_true]
            simp [hd, backoffDelays_cons rc hrc]
          · simp only [hc, he, hrc, if_true]
            simpa using hee
      · have hrc' : rc = MAX_RETRY_ATTEMPTS := by omega
        subst hrc'
        obtain ⟨e, he⟩ := Option.isSome_iff_exists.mp (hop MAX_RETRY_ATTEMPTS)
        unfold callRetryAux
        cases hc : (isServiceAvailable t h).1 <;>
          simp [hc, he, hrc, backoffDelays]

/-! ## Claims C1, C4, C5 -/

/-- C1 (counterexample): with the default budget (`retryCount` starting
at 0, `MAX_RETRY_ATTEMPTS = 5`, `RETRY_DELAY_MS = 2000`) against an
always-failing operation, the executor does NOT make 5 attempts with
backoff delays [2000, 4000, 8000, 16000]: the guard
`retryCount < MAX_RETRY_ATTEMPTS` admits retries at counts 0..4, giving
6 attempts and 5 delays. -/
theorem C1_counterexample :
    ¬ ((callServiceWithRetry "cms"
          (fun _ => some { errorType := none, suggestedAction := none })
          initialHealth 0 0).attempts = 5 ∧
       (callServiceWithRetry "cms"
          (fun _ => some { errorType := none, suggestedAction := none })
          initialHealth 0 0).delays = [2000, 4000, 8000, 16000]) := by
  decide

/-- C1 (amended): for every invocation of the retry executor with the
default budget against an operation that fails on every attempt, exactly
6 attempts are made in total, the inter-attempt backoff delays are
exactly [2000, 4000, 8000, 16000, 32000] ms
(`RETRY_DELAY_MS * 2 ^ attemptIndex`), and afterwards a terminal error
is produced carrying the failed service id and the total attempts
made (6). -/
theorem C1_default_budget (sid : String) (op : Nat → Option AdapterError) (t : Nat)
    (hop : ∀ i, (op i).isSome) :
    (callServiceWithRetry sid op initialHealth t 0).attempts = 6 ∧
    (callServiceWithRetry sid op initialHealth t 0).delays =
      [2000, 4000, 8000, 16000, 32000] ∧
    ∃ e, (callServiceWithRetry sid op initialHealth t 0).result = .error e ∧
      e.serviceName = sid ∧ e.retryAttempts = 6 := by
  obtain ⟨ha, hd, he⟩ :=
    callRetryAux_allFail sid op hop (MAX_RETRY_ATTEMPTS + 1) initialHealth t 0
      (by decide) (by decide)
  refine ⟨ha, ?_, he⟩
  unfold callServiceWithRetry
  rw [hd]
  decide

/-- C1 (witness for the amended theorem). -/
theorem C1_default_budget_witness :
    (callServiceWithRetry "cms"
        (fun _ => some { errorType := none, suggestedAction := none })
        initialHealth 0 0).attempts = 6 ∧
    (callServiceWithRetry "cms"
        (fun _ => some { errorType := none, suggestedAction := none })
        initialHealth 0 0).delays = [2000, 4000, 8000, 16000, 32000] ∧
    ∃ e, (callServiceWithRetry "cms"
        (fun _ => some { errorType := none, suggestedAction := none })
        initialHealth 0 0).result = .error e ∧
      e.serviceName = "cms" ∧ e.retryAttempts = 6 :=
  C1_default_budget "cms" (fun _ => some { errorType := none, suggestedAction := none }) 0
    (fun _ => rfl)

/-- C4: after exactly `CIRCUIT_BREAKER_THRESHOLD` (3) consecutive
`recordServiceFailure` calls from the fresh entry (after only 2 the
service is still reported available), `isServiceAvailable` returns
`false` while at most `CIRCUIT_BREAKER_TIMEOUT` (30000) ms have passed
since the last failure; once more than the timeout has elapsed, the next
`isServiceAvailable` call resets the entry to available with zero
consecutive failures and returns `true`. -/
theorem C4_threshold_and_cooldown (t1 t2 t3 t t' : Nat)
    (hwithin : t ≤ t3 + CIRCUIT_BREAKER_TIMEOUT)
    (hafter : t3 + CIRCUIT_BREAKER_TIMEOUT < t') :
    (isServiceAvailable t
        (recordServiceFailure t2 (recordServiceFailure t1 initialHealth))).1 = true ∧
    (isServiceAvailable t
        (recordServiceFailure t3
          (recordServiceFailure t2 (recordServiceFailure t1 initialHealth)))).1 = false ∧
    (isServiceAvailable t'
        (recordServiceFailure t3
          (recordServiceFailure t2 (recordServiceFailure t1 initialHealth)))).1 = true ∧
    (isServiceAvailable t'
        (recordServiceFailure t3
          (recordServiceFailure t2 (recordServiceFailure t1 initialHealth)))).2 =
      { available := true, lastFailure := some t3, consecutiveFailures := 0 } := by
  have h3 : recordServiceFailure t3
      (recordServiceFailure t2 (recordServiceFailure t1 initialHealth)) =
      { available := false, lastFailure := some t3, consecutiveFailures := 3 } := by
    simp [recordServiceFailure, initialHealth, CIRCUIT_BREAKER_THRESHOLD]
  have h2 : recordServiceFailure t2 (recordServiceFailure t1 initialHealth) =
      { available := true, lastFailure := some t2, consecutiveFailures := 2 } := by
    simp [recordServiceFailure, initialHealth, CIRCUIT_BREAKER_THRESHOLD]
  rw [h3, h2]
  have hC : CIRCUIT_BREAKER_TIMEOUT = 30000 := rfl
  have hno : ¬ CIRCUIT_BREAKER_TIMEOUT < t - t3 := by omega
  have hyes : CIRCUIT_BREAKER_TIMEOUT < t' - t3 := by omega
  refine ⟨by simp [isServiceAvailable], ?_, ?_, ?_⟩ <;>
    simp [isServiceAvailable, hno, hyes]

/-- C4 (witness): three failures at times 0, 1, 2; a check at time 100
fails fast, a check at time 40000 resets the breaker. -/
theorem C4_threshold_and_cooldown_witness :
    (isServiceAvailable 100
        (recordServiceFailure 1 (recordServiceFailure 0 initialHealth))).1 = true ∧
    (isServiceAvailable 100
        (recordServiceFailure 2
          (recordServiceFailure 1 (recordServiceFailure 0 initialHealth)))).1 = false ∧
    (isServiceAvailable 40000
        (recordServiceFailure 2
          (recordServiceFailure 1 (recordServiceFailure 0 initialHealth)))).1 = true ∧
    (isServiceAvailable 40000
        (recordServiceFailure 2
          (recordServiceFailure 1 (recordServiceFailure 0 initialHealth)))).2 =
      { available := true, lastFailure := some 2, consecutiveFailures := 0 } :=
  C4_threshold_and_cooldown 0 1 2 100 40000 (by decide) (by decide)

/-- Reachable-state invariant of one circuit-breaker entry: whenever the
stored availability flag is `false`, the consecutive-failure count is at
least the threshold and a last-failure timestamp is recorded. -/
theorem runBreaker_flag_invariant (ops : List (Nat × BreakerOp)) :
    (runBreaker ops).available = false →
      CIRCUIT_BREAKER_THRESHOLD ≤ (runBreaker ops).consecutiveFailures ∧
      (runBreaker ops).lastFailure.isSome = true := by
  suffices hgen : ∀ (l : List (Nat × BreakerOp)) (h : ServiceHealth),
      (h.available = false →
        CIRCUIT_BREAKER_THRESHOLD ≤ h.consecutiveFailures ∧ h.lastFailure.isSome = true) →
      (l.foldl applyBreakerOp h).available = false →
        CIRCUIT_BREAKER_THRESHOLD ≤ (l.foldl applyBreakerOp h).consecutiveFailures ∧
        (l.foldl applyBreakerOp h).lastFailure.isSome = true by
    exact hgen ops initialHealth (by simp [initialHealth])
  intro l
  induction l with
  | nil => intro h hh; exact hh
  | cons p rest ih =>
      intro h hh
      refine ih (applyBreakerOp h p) ?_
      obtain ⟨t, op⟩ := p
      cases op with
      | success => simp [applyBreakerOp, recordServiceSuccess]
      | failure =>
          intro hfalse
          simp only [applyBreakerOp, recordServiceFailure] at hfalse ⊢
          split at hfalse
          all_goals rename_i hcond
          all_goals simp_all
          all_goals omega
      | check =>
          intro hfalse
          have hsnd : applyBreakerOp h (t, BreakerOp.check) = h ∨
              (applyBreakerOp h (t, BreakerOp.check)).available = true := by
            simp only [applyBreakerOp, isServiceAvailable]
            split
            · left; rfl
            · split
              · right; rfl
              · left; rfl
          rcases hsnd with heq | htrue
          · rw [heq] at hfalse ⊢
            exact hh hfalse
          · simp [htrue] at hfalse

/-- C5 (counterexample): the invariant "availability is false only while
less than the timeout has elapsed since the last failure" fails for the
stored entry: after three failures at time 0 and no further calls, at
time 40000 the flag is still false although 40000 ms ≥ 30000 ms have
elapsed (the reset happens lazily, only inside the next
`isServiceAvailable` call). -/
theorem C5_counterexample :
    (runBreaker [(0, .failure), (0, .failure), (0, .failure)]).available = false ∧
    (runBreaker [(0, .failure), (0, .failure), (0, .failure)]).lastFailure = some 0 ∧
    ¬ (40000 - 0 < CIRCUIT_BREAKER_TIMEOUT) := by
  decide

/-- C5 (amended): in every state reachable by any sequence of
`recordSuccess` / `recordFailure` / `isAvailable` calls, a false stored
availability flag implies the consecutive-failure count is at least the
threshold (3); and an `isAvailable` check observes `false` only if
additionally at most the timeout (30000 ms) has elapsed since the last
recorded failure — between calls the stored flag may remain false after
the cooldown, because the reset is performed lazily by the next
`isAvailable` call. -/
theorem C5_availability_invariant (ops : List (Nat × BreakerOp)) (t : Nat) :
    ((runBreaker ops).available = false →
      CIRCUIT_BREAKER_THRESHOLD ≤ (runBreaker ops).consecutiveFailures) ∧
    ((isServiceAvailable t (runBreaker ops)).1 = false →
      CIRCUIT_BREAKER_THRESHOLD ≤ (runBreaker ops).consecutiveFailures ∧
      ∃ lf, (runBreaker ops).lastFailure = some lf ∧
        t - lf ≤ CIRCUIT_BREAKER_TIMEOUT) := by
  refine ⟨fun hfl => (runBreaker_flag_invariant ops hfl).1, fun hobs => ?_⟩
  have hfl : (runBreaker ops).available = false := by
    by_contra hav
    have hav' : (runBreaker ops).available = true := by
      cases hx : (runBreaker ops).available
      · exact absurd hx hav
      · rfl
    simp [isServiceAvailable, hav'] at hobs
  obtain ⟨hcnt, hsome⟩ := runBreaker_flag_invariant ops hfl
  obtain ⟨lf, hlf⟩ := Option.isSome_iff_exists.mp hsome
  refine ⟨hcnt, lf, hlf, ?_⟩
  by_contra hgt
  have hgt' : CIRCUIT_BREAKER_TIMEOUT < t - lf := Nat.not_le.mp hgt
  simp [isServiceAvailable, hfl, hlf, hgt'] at hobs

/-- C5 (witness for the amended theorem): three failures at time 0
observed by a check at time 1000. -/
theorem C5_availability_invariant_witness :
    CIRCUIT_BREAKER_THRESHOLD ≤
      (runBreaker [(0, .failure), (0, .failure), (0, .failure)]).consecutiveFailures ∧
    ∃ lf, (runBreaker [(0, .failure), (0, .failure), (0, .failure)]).lastFailure = some lf ∧
      1000 - lf ≤ CIRCUIT_BREAKER_TIMEOUT :=
  (C5_availability_invariant [(0, .failure), (0, .failure), (0, .failure)] 1000).2 (by decide)

/-! ## Claims C8 and C10 (gated attempts inside the retry executor) -/

/-- When `isServiceAvailable` reports `false` it neither mutated the
entry nor was the entry available to begin with. -/
theorem isAvail_false_inv (t : Nat) (h : ServiceHealth)
    (hg : (isServiceAvailable t h).1 = false) :
    h.available = false ∧ (isServiceAvailable t h).2 = h := by
  cases hav : h.available with
  | false =>
      by_cases hrt : CIRCUIT_BREAKER_TIMEOUT < t - h.lastFailure.getD 0
      · simp [isServiceAvailable, hav, hrt] at hg
      · exact ⟨rfl, by simp [isServiceAvailable, hav, hrt]⟩
  | true => simp [isServiceAvailable, hav] at hg

/-- Unfolding of one circuit-open (gated) attempt: the adapter is not
invoked, a failure is recorded at the current time against the
unchanged entry, the backoff delay elapses, a retry event is emitted,
and the executor recurses with `retryCount + 1`. -/
theorem callRetryAux_gated_step (sid : String) (op : Nat → Option AdapterError)
    (f : Nat) (h : ServiceHealth) (t rc : Nat)
    (hg : (isServiceAvailable t h).1 = false) (hrc : rc < MAX_RETRY_ATTEMPTS) :
    callRetryAux sid op (f + 1) h t rc =
      { result := (callRetryAux sid op f (recordServiceFailure t h)
          (t + RETRY_DELAY_MS * 2 ^ rc) (rc + 1)).result,
        health := (callRetryAux sid op f (recordServiceFailure t h)
          (t + RETRY_DELAY_MS * 2 ^ rc) (rc + 1)).health,
        time := (callRetryAux sid op f (recordServiceFailure t h)
          (t + RETRY_DELAY_MS * 2 ^ rc) (rc + 1)).time,
        attempts := 1 + (callRetryAux sid op f (recordServiceFailure t h)
          (t + RETRY_DELAY_MS * 2 ^ rc) (rc + 1)).attempts,
        downstreamCalls := (callRetryAux sid op f (recordServiceFailure t h)
          (t + RETRY_DELAY_MS * 2 ^ rc) (rc + 1)).downstreamCalls,
        delays := RETRY_DELAY_MS * 2 ^ rc :: (callRetryAux sid op f (recordServiceFailure t h)
          (t + RETRY_DELAY_MS * 2 ^ rc) (rc + 1)).delays,
        events := (jsUpper sid ++ "_RETRY_SCHEDULED") ::
          (callRetryAux sid op f (recordServiceFailure t h)
            (t + RETRY_DELAY_MS * 2 ^ rc) (rc + 1)).events } := by
  obtain ⟨hav, hsnd⟩ := isAvail_false_inv t h hg
  conv_lhs => unfold callRetryAux
  simp [hg, hsnd, hrc]

/-- C8: an attempt for which the circuit breaker reports the service
unavailable performs no downstream call (the downstream-call count of
the whole run equals that of the remaining attempts) yet consumes one
unit of the attempt budget; the sequence is not aborted early — against
an always-failing operation all `MAX_RETRY_ATTEMPTS - rc` remaining
attempts still occur, and the gated attempt's backoff delay still
elapses. -/
theorem C8_circuit_open_consumes_budget (sid : String) (op : Nat → Option AdapterError)
    (h : ServiceHealth) (t rc : Nat)
    (hgate : (isServiceAvailable t h).1 = false) (hrc : rc < MAX_RETRY_ATTEMPTS)
    (hop : ∀ i, (op i).isSome) :
    (callServiceWithRetry sid op h t rc).downstreamCalls =
      (callServiceWithRetry sid op (recordServiceFailure t h)
        (t + RETRY_DELAY_MS * 2 ^ rc) (rc + 1)).downstreamCalls ∧
    (callServiceWithRetry sid op h t rc).attempts =
      1 + (callServiceWithRetry sid op (recordServiceFailure t h)
        (t + RETRY_DELAY_MS * 2 ^ rc) (rc + 1)).attempts ∧
    (callServiceWithRetry sid op h t rc).delays =
      RETRY_DELAY_MS * 2 ^ rc :: (callServiceWithRetry sid op (recordServiceFailure t h)
        (t + RETRY_DELAY_MS * 2 ^ rc) (rc + 1)).delays ∧
    (callServiceWithRetry sid op (recordServiceFailure t h)
        (t + RETRY_DELAY_MS * 2 ^ rc) (rc + 1)).attempts = MAX_RETRY_ATTEMPTS - rc := by
  unfold callServiceWithRetry
  rw [callRetryAux_gated_step sid op MAX_RETRY_ATTEMPTS h t rc hgate hrc]
  rw [callRetryAux_congr sid op MAX_RETRY_ATTEMPTS (MAX_RETRY_ATTEMPTS + 1)
    (recordServiceFailure t h) (t + RETRY_DELAY_MS * 2 ^ rc) (rc + 1) (by omega) (by omega)]
  obtain ⟨ha, _, _⟩ := callRetryAux_allFail sid op hop (MAX_RETRY_ATTEMPTS + 1)
    (recordServiceFailure t h) (t + RETRY_DELAY_MS * 2 ^ rc) (rc + 1) (by omega) (by omega)
  exact ⟨rfl, rfl, rfl, by rw [ha]; omega⟩

/-- C8 (witness): circuit already open (3 failures, last at time 0),
gated attempt at time 1000 with retry count 0 against an always-failing
operation. -/
theorem C8_circuit_open_consumes_budget_witness :
    (callServiceWithRetry "wms" (fun _ => some { errorType := none, suggestedAction := none })
      { available := false, lastFailure := some 0, consecutiveFailures := 3 } 1000 0).downstreamCalls =
      (callServiceWithRetry "wms" (fun _ => some { errorType := none, suggestedAction := none })
        (recordServiceFailure 1000
          { available := false, lastFailure := some 0, consecutiveFailures := 3 })
        (1000 + RETRY_DELAY_MS * 2 ^ 0) (0 + 1)).downstreamCalls ∧
    (callServiceWithRetry "wms" (fun _ => some { errorType := none, suggestedAction := none })
      { available := false, lastFailure := some 0, consecutiveFailures := 3 } 1000 0).attempts =
      1 + (callServiceWithRetry "wms" (fun _ => some { errorType := none, suggestedAction := none })
        (recordServiceFailure 1000
          { available := false, lastFailure := some 0, consecutiveFailures := 3 })
        (1000 + RETRY_DELAY_MS * 2 ^ 0) (0 + 1)).attempts ∧
    (callServiceWithRetry "wms" (fun _ => some { errorType := none, suggestedAction := none })
      { available := false, lastFailure := some 0, consecutiveFailures := 3 } 1000 0).delays =
      RETRY_DELAY_MS * 2 ^ 0 ::
        (callServiceWithRetry "wms" (fun _ => some { errorType := none, suggestedAction := none })
          (recordServiceFailure 1000
            { available := false, lastFailure := some 0, consecutiveFailures := 3 })
          (1000 + RETRY_DELAY_MS * 2 ^ 0) (0 + 1)).delays ∧
    (callServiceWithRetry "wms" (fun _ => some { errorType := none, suggestedAction := none })
      (recordServiceFailure 1000
        { available := false, lastFailure := some 0, consecutiveFailures := 3 })
      (1000 + RETRY_DELAY_MS * 2 ^ 0) (0 + 1)).attempts = MAX_RETRY_ATTEMPTS - 0 :=
  C8_circuit_open_consumes_budget "wms"
    (fun _ => some { errorType := none, suggestedAction := none })
    { available := false, lastFailure := some 0, consecutiveFailures := 3 } 1000 0
    (by decide) (by decide) (fun _ => rfl)

/-- C10: a circuit-open fast failure still calls
`recordServiceFailure` — the executor recurses on the entry with the
failure recorded at the gated attempt's time, so the consecutive-failure
count is incremented and the last-failure timestamp moves to the current
time; consequently any `isAvailable` check within the next
`CIRCUIT_BREAKER_TIMEOUT` ms of the gated attempt (rather than of the
earlier failure) still reports the service unavailable. -/
theorem C10_gated_attempt_records_failure (sid : String) (op : Nat → Option AdapterError)
    (h : ServiceHealth) (t rc t' : Nat)
    (hgate : (isServiceAvailable t h).1 = false) (hrc : rc < MAX_RETRY_ATTEMPTS)
    (hwithin : t' ≤ t + CIRCUIT_BREAKER_TIMEOUT) :
    callServiceWithRetry sid op h t rc =
      { result := (callServiceWithRetry sid op (recordServiceFailure t h)
          (t + RETRY_DELAY_MS * 2 ^ rc) (rc + 1)).result,
        health := (callServiceWithRetry sid op (recordServiceFailure t h)
          (t + RETRY_DELAY_MS * 2 ^ rc) (rc + 1)).health,
        time := (callServiceWithRetry sid op (recordServiceFailure t h)
          (t + RETRY_DELAY_MS * 2 ^ rc) (rc + 1)).time,
        attempts := 1 + (callServiceWithRetry sid op (recordServiceFailure t h)
          (t + RETRY_DELAY_MS * 2 ^ rc) (rc + 1)).attempts,
        downstreamCalls := (callServiceWithRetry sid op (recordServiceFailure t h)
          (t + RETRY_DELAY_MS * 2 ^ rc) (rc + 1)).downstreamCalls,
        delays := RETRY_DELAY_MS * 2 ^ rc ::
          (callServiceWithRetry sid op (recordServiceFailure t h)
            (t + RETRY_DELAY_MS * 2 ^ rc) (rc + 1)).delays,
        events := (jsUpper sid ++ "_RETRY_SCHEDULED") ::
          (callServiceWithRetry sid op (recordServiceFailure t h)
            (t + RETRY_DELAY_MS * 2 ^ rc) (rc + 1)).events } ∧
    (recordServiceFailure t h).lastFailure = some t ∧
    (recordServiceFailure t h).consecutiveFailures = h.consecutiveFailures + 1 ∧
    (isServiceAvailable t' (recordServiceFailure t h)).1 = false := by
  obtain ⟨hav, _⟩ := isAvail_false_inv t h hgate
  have hfields : (recordServiceFailure t h).lastFailure = some t ∧
      (recordServiceFailure t h).consecutiveFailures = h.consecutiveFailures + 1 ∧
      (recordServiceFailure t h).available = false := by
    simp only [recordServiceFailure]
    split
    · exact ⟨rfl, rfl, rfl⟩
    · exact ⟨rfl, rfl, hav⟩
  refine ⟨?_, hfields.1, hfields.2.1, ?_⟩
  · unfold callServiceWithRetry
    rw [callRetryAux_gated_step sid op MAX_RETRY_ATTEMPTS h t rc hgate hrc,
      callRetryAux_congr sid op MAX_RETRY_ATTEMPTS (MAX_RETRY_ATTEMPTS + 1)
        (recordServiceFailure t h) (t + RETRY_DELAY_MS * 2 ^ rc) (rc + 1)
        (by omega) (by omega)]
  · have hC : CIRCUIT_BREAKER_TIMEOUT = 30000 := rfl
    have hno : ¬ CIRCUIT_BREAKER_TIMEOUT < t' - t := by omega
    simp [isServiceAvailable, hfields.2.2, hfields.1, hno]

/-- C10 (witness): same gated configuration as the C8 witness, checked
again at time 20000. -/
theorem C10_gated_attempt_records_failure_witness :
    callServiceWithRetry "wms" (fun _ => some { errorType := none, suggestedAction := none })
      { available := false, lastFailure := some 0, consecutiveFailures := 3 } 1000 0 =
      { result := (callServiceWithRetry "wms"
          (fun _ => some { errorType := none, suggestedAction := none })
          (recordServiceFailure 1000
            { available := false, lastFailure := some 0, consecutiveFailures := 3 })
          (1000 + RETRY_DELAY_MS * 2 ^ 0) (0 + 1)).result,
        health := (callServiceWithRetry "wms"
          (fun _ => some { errorType := none, suggestedAction := none })
          (recordServiceFailure 1000
            { available := false, lastFailure := some 0, consecutiveFailures := 3 })
          (1000 + RETRY_DELAY_MS * 2 ^ 0) (0 + 1)).health,
        time := (callServiceWithRetry "wms"
          (fun _ => some { errorType := none, suggestedAction := none })
          (recordServiceFailure 1000
            { available := false, lastFailure := some 0, consecutiveFailures := 3 })
          (1000 + RETRY_DELAY_MS * 2 ^ 0) (0 + 1)).time,
        attempts := 1 + (callServiceWithRetry "wms"
          (fun _ => some { errorType := none, suggestedAction := none })
          (recordServiceFailure 1000
            { available := false, lastFailure := some 0, consecutiveFailures := 3 })
          (1000 + RETRY_DELAY_MS * 2 ^ 0) (0 + 1)).attempts,
        downstreamCalls := (callServiceWithRetry "wms"
          (fun _ => some { errorType := none, suggestedAction := none })
          (recordServiceFailure 1000
            { available := false, lastFailure := some 0, consecutiveFailures := 3 })
          (1000 + RETRY_DELAY_MS * 2 ^ 0) (0 + 1)).downstreamCalls,
        delays := RETRY_DELAY_MS * 2 ^ 0 :: (callServiceWithRetry "wms"
          (fun _ => some { errorType := none, suggestedAction := none })
          (recordServiceFailure 1000
            { available := false, lastFailure := some 0, consecutiveFailures := 3 })
          (1000 + RETRY_DELAY_MS * 2 ^ 0) (0 + 1)).delays,
        events := (jsUpper "wms" ++ "_RETRY_SCHEDULED") :: (callServiceWithRetry "wms"
          (fun _ => some { errorType := none, suggestedAction := none })
          (recordServiceFailure 1000
            { available := false, lastFailure := some 0, consecutiveFailures := 3 })
          (1000 + RETRY_DELAY_MS * 2 ^ 0) (0 + 1)).events } ∧
    (recordServiceFailure 1000
      { available := false, lastFailure := some 0, consecutiveFailures := 3 }).lastFailure = some 1000 ∧
    (recordServiceFailure 1000
      { available := false, lastFailure := some 0, consecutiveFailures := 3 }).consecutiveFailures = 3 + 1 ∧
    (isServiceAvailable 20000 (recordServiceFailure 1000
      { available := false, lastFailure := some 0, consecutiveFailures := 3 })).1 = false :=
  C10_gated_attempt_records_failure "wms"
    (fun _ => some { errorType := none, suggestedAction := none })
    { available := false, lastFailure := some 0, consecutiveFailures := 3 } 1000 0 20000
    (by decide) (by decide) (by decide)

/-! ## Saga coordinator: `processDistributedTransaction`
(order-service/index.js lines 337-436 and 587-840)

The three fixed steps.  For each step the coordinator emits a started
event, runs the step's adapter through the retry executor, and either
records the step (with its compensation action) and persists / emits the
step status, or — on a terminal error — runs the recorded compensations
in reverse insertion order (`OrderProcessingSaga.compensate`), emits
`ORDER_SAGA_COMPENSATED`, and lets the error propagate to the outer
catch, which persists `FAILED` with the structured error detail and
emits `ORDER_FAILED`.

Persisted rows model the `orders.status` writes performed by
`OrderRepository.updateOrderStatus` (each compensation action is such a
write of `..._COMPENSATION_EXECUTED`; a compensation action that throws
persists nothing and is only logged).  The event list models the Kafka
`emitEvent` calls; the append-only `order_events` audit rows and log
output are not modelled.  Adapter behaviour per step is
`ops st : Nat → Option AdapterError` as in the retry executor, and
`compFails st = true` means step `st`'s compensation action itself
throws. -/

inductive Step where
  | cms
  | wms
  | ros
deriving DecidableEq

def serviceName : Step → String
  | .cms => "cms"
  | .wms => "wms"
  | .ros => "ros"

def stepName : Step → String
  | .cms => "CMS_VERIFICATION"
  | .wms => "WMS_REGISTRATION"
  | .ros => "ROS_OPTIMIZATION"

def startedEvent (st : Step) : String := stepName st ++ "_STARTED"

def successStatus : Step → String
  | .cms => "CMS_VERIFIED"
  | .wms => "WMS_REGISTERED"
  | .ros => "ROS_OPTIMIZED"

def compStatus : Step → String
  | .cms => "CMS_COMPENSATION_EXECUTED"
  | .wms => "WMS_COMPENSATION_EXECUTED"
  | .ros => "ROS_COMPENSATION_EXECUTED"

/-- One `orders.status` write: the status value, plus the structured
error fields persisted alongside a `FAILED` status (lines 805-813). -/
structure PersistEntry where
  status : String
  errorType : Option String
  suggestedAction : Option String
  retryAttempts : Option Nat
deriving DecidableEq

/-- One Kafka event: its type, plus the structured `errorDetails`
fields of an `ORDER_FAILED` event (lines 828-836). -/
structure EventEntry where
  eventType : String
  failedService : Option String
  errorType : Option String
  suggestedAction : Option String
  retryAttempts : Option Nat
deriving DecidableEq

def persistPlain (s : String) : PersistEntry :=
  { status := s, errorType := none, suggestedAction := none, retryAttempts := none }

def plainEvent (n : String) : EventEntry :=
  { eventType := n, failedService := none, errorType := none,
    suggestedAction := none, retryAttempts := none }

/-- The whole system as seen by one order's saga: the three
circuit-breaker entries (shared, per service), the clock, the sequence
of status writes for this order, the emitted events, the saga context
(recorded compensation actions in insertion order), the compensation
invocation log, and per-service downstream adapter call counts. -/
structure SystemState where
  cmsHealth : ServiceHealth
  wmsHealth : ServiceHealth
  rosHealth : ServiceHealth
  time : Nat
  persisted : List PersistEntry
  events : List EventEntry
  sagaComps : List Step
  compInvoked : List Step
  cmsCalls : Nat
  wmsCalls : Nat
  rosCalls : Nat

def healthOf (s : SystemState) : Step → ServiceHealth
  | .cms => s.cmsHealth
  | .wms => s.wmsHealth
  | .ros => s.rosHealth

def setHealth (s : SystemState) (st : Step) (h : ServiceHealth) : SystemState :=
  match st with
  | .cms => { s with cmsHealth := h }
  | .wms => { s with wmsHealth := h }
  | .ros => { s with rosHealth := h }

def callsOf (s : SystemState) : Step → Nat
  | .cms => s.cmsCalls
  | .wms => s.wmsCalls
  | .ros => s.rosCalls

def addCalls (s : SystemState) (st : Step) (n : Nat) : SystemState :=
  match st with
  | .cms => { s with cmsCalls := s.cmsCalls + n }
  | .wms => { s with wmsCalls := s.wmsCalls + n }
  | .ros => { s with rosCalls := s.rosCalls + n }

def emitE (s : SystemState) (e : EventEntry) : SystemState :=
  { s with events := s.events ++ [e] }

def persistP (s : SystemState) (p : PersistEntry) : SystemState :=
  { s with persisted := s.persisted ++ [p] }

/-- One compensation action invocation (the loop body of
`OrderProcessingSaga.compensate`, lines 387-403): the invocation is
logged; the action itself persists the step's compensation status
unless it throws (`compFails st`), in which case the failure is only
logged and the loop continues. -/
def compensateOne (compFails : Step → Bool) (s : SystemState) (st : Step) : SystemState :=
  let s1 := { s with compInvoked := s.compInvoked ++ [st] }
  if compFails st then s1
  else persistP s1 (persistPlain (compStatus st))

/-- `OrderProcessingSaga.compensate` (lines 381-414): run the recorded
compensation actions in reverse insertion order, then emit
`ORDER_SAGA_COMPENSATED`. -/
def runCompensations (compFails : Step → Bool) (s : SystemState) : SystemState :=
  emitE (s.sagaComps.reverse.foldl (compensateOne compFails) s)
    (plainEvent "ORDER_SAGA_COMPENSATED")

/-- The retry-executor invocation the saga makes for step `st` from
system state `s` (retry count starts at 0). -/
def stepRetry (ops : Step → Nat → Option AdapterError) (st : Step) (s : SystemState) :
    RetryOutcome :=
  callServiceWithRetry (serviceName st) (ops st) (healthOf s st) s.time 0

/-- One saga step (`emitEvent ..._STARTED` + `saga.executeStep` + the
on-success `updateOrderStatus` / `emitEvent` of
`processDistributedTransaction`): returns the new system state and the
terminal error, if any, that `executeStep` re-threw after
compensating. -/
def runStep (ops : Step → Nat → Option AdapterError) (compFails : Step → Bool)
    (st : Step) (s : SystemState) : SystemState × Option TerminalError :=
  let s1 := emitE s (plainEvent (startedEvent st))
  let r := stepRetry ops st s
  let s2 := addCalls
    (setHealth { s1 with time := r.time, events := s1.events ++ r.events.map plainEvent }
      st r.health) st r.downstreamCalls
  match r.result with
  | .ok _ =>
      let s3 := { s2 with sagaComps := s2.sagaComps ++ [st] }
      (emitE (persistP s3 (persistPlain (successStatus st)))
        (plainEvent (successStatus st)), none)
  | .error e => (runCompensations compFails s2, some e)

/-- The outer catch of `processDistributedTransaction` (lines 774-839):
persist `FAILED` with the structured error detail, then emit
`ORDER_FAILED` with the `errorDetails` payload (JavaScript `||`
defaults applied). -/
def failOrder (s : SystemState) (e : TerminalError) : SystemState :=
  emitE
    (persistP s
      { status := "FAILED", errorType := e.errorType,
        suggestedAction := e.suggestedAction, retryAttempts := some e.retryAttempts })
    { eventType := "ORDER_FAILED", failedService := some e.serviceName,
      errorType := some (e.errorType.getD "UNKNOWN"),
      suggestedAction := some (e.suggestedAction.getD "Contact system administrator"),
      retryAttempts := some e.retryAttempts }

/-- All three steps succeeded (lines 734-756): persist
`READY_FOR_DELIVERY` and emit the completion event. -/
def finishOrder (s : SystemState) : SystemState :=
  emitE (persistP s (persistPlain "READY_FOR_DELIVERY"))
    (plainEvent "ORDER_READY_FOR_DELIVERY")

/-- `processDistributedTransaction` (lines 587-840): the three steps in
fixed order; the first terminal error goes to the outer catch and no
further step runs. -/
def runSaga (ops : Step → Nat → Option AdapterError) (compFails : Step → Bool)
    (s0 : SystemState) : SystemState :=
  match runStep ops compFails .cms s0 with
  | (s, some e) => failOrder s e
  | (s, none) =>
    match runStep ops compFails .wms s with
    | (s, some e) => failOrder s e
    | (s, none) =>
      match runStep ops compFails .ros s with
      | (s, some e) => failOrder s e
      | (s, none) => finishOrder s

/-- State when the background processor picks the order up: fresh
breaker entries (process start), the `SUBMITTED` row written by
`OrderRepository.createOrder`, and the acceptance events emitted by the
POST handler. -/
def initialSystem (t0 : Nat) : SystemState :=
  { cmsHealth := initialHealth, wmsHealth := initialHealth, rosHealth := initialHealth,
    time := t0, persisted := [persistPlain "SUBMITTED"],
    events := [plainEvent "ORDER_ACCEPTED", plainEvent "DISTRIBUTED_TRANSACTION_START"],
    sagaComps := [], compInvoked := [], cmsCalls := 0, wmsCalls := 0, rosCalls := 0 }

/-- The fixed step order. -/
def stepAt : Fin 3 → Step
  | ⟨0, _⟩ => .cms
  | ⟨1, _⟩ => .wms
  | ⟨2, _⟩ => .ros

def stepsList : List Step := [.cms, .wms, .ros]

def sagaRun1 (ops : Step → Nat → Option AdapterError) (compFails : Step → Bool)
    (t0 : Nat) : SystemState × Option TerminalError :=
  runStep ops compFails .cms (initialSystem t0)

def sagaRun2 (ops : Step → Nat → Option AdapterError) (compFails : Step → Bool)
    (t0 : Nat) : SystemState × Option TerminalError :=
  runStep ops compFails .wms (sagaRun1 ops compFails t0).1

def sagaRun3 (ops : Step → Nat → Option AdapterError) (compFails : Step → Bool)
    (t0 : Nat) : SystemState × Option TerminalError :=
  runStep ops compFails .ros (sagaRun2 ops compFails t0).1

/-- The outcome of the `k`-th step along the straight-line run (its
state is only the one the saga actually reaches when all earlier steps
succeed). -/
def stepOutcome (ops : Step → Nat → Option AdapterError) (compFails : Step → Bool)
    (t0 : Nat) : Fin 3 → SystemState × Option TerminalError
  | ⟨0, _⟩ => sagaRun1 ops compFails t0
  | ⟨1, _⟩ => sagaRun2 ops compFails t0
  | ⟨2, _⟩ => sagaRun3 ops compFails t0

/-! ### Projection lemmas for the saga state -/

@[simp]
theorem setHealth_persisted (s : SystemState) (st : Step) (h : ServiceHealth) :
    (setHealth s st h).persisted = s.persisted := by
  cases st <;> rfl

@[simp]
theorem setHealth_events (s : SystemState) (st : Step) (h : ServiceHealth) :
    (setHealth s st h).events = s.events := by
  cases st <;> rfl

@[simp]
theorem setHealth_sagaComps (s : SystemState) (st : Step) (h : ServiceHealth) :
    (setHealth s st h).sagaComps = s.sagaComps := by
  cases st <;> rfl

@[simp]
theorem setHealth_compInvoked (s : SystemState) (st : Step) (h : ServiceHealth) :
    (setHealth s st h).compInvoked = s.compInvoked := by
  cases st <;> rfl

@[simp]
theorem addCalls_persisted (s : SystemState) (st : Step) (n : Nat) :
    (addCalls s st n).persisted = s.persisted := by
  cases st <;> rfl

@[simp]
theorem addCalls_events (s : SystemState) (st : Step) (n : Nat) :
    (addCalls s st n).events = s.events := by
  cases st <;> rfl

@[simp]
theorem addCalls_sagaComps (s : SystemState) (st : Step) (n : Nat) :
    (addCalls s st n).sagaComps = s.sagaComps := by
  cases st <;> rfl

@[simp]
theorem addCalls_compInvoked (s : SystemState) (st : Step) (n : Nat) :
    (addCalls s st n).compInvoked = s.compInvoked := by
  cases st <;> rfl

theorem callsOf_setHealth (s : SystemState) (st : Step) (h : ServiceHealth) (st2 : Step) :
    callsOf (setHealth s st h) st2 = callsOf s st2 := by
  cases st <;> cases st2 <;> rfl

theorem callsOf_addCalls_other (s : SystemState) (st : Step) (n : Nat) (st2 : Step)
    (hne : st2 ≠ st) : callsOf (addCalls s st n) st2 = callsOf s st2 := by
  cases st <;> cases st2 <;> first | rfl | exact absurd rfl hne

/-- Effect of the compensation loop on the system state. -/
theorem foldl_compensateOne_spec (compFails : Step → Bool) :
    ∀ (l : List Step) (s : SystemState),
      (l.foldl (compensateOne compFails) s).persisted =
        s.persisted ++ (l.filter (fun st => !compFails st)).map
          (fun st => persistPlain (compStatus st)) ∧
      (l.foldl (compensateOne compFails) s).compInvoked = s.compInvoked ++ l ∧
      (l.foldl (compensateOne compFails) s).events = s.events ∧
      (l.foldl (compensateOne compFails) s).sagaComps = s.sagaComps ∧
      (l.foldl (compensateOne compFails) s).cmsCalls = s.cmsCalls ∧
      (l.foldl (compensateOne compFails) s).wmsCalls = s.wmsCalls ∧
      (l.foldl (compensateOne compFails) s).rosCalls = s.rosCalls := by
  intro l
  induction l with
  | nil => intro s; simp
  | cons st rest ih =>
      intro s
      obtain ⟨hp, hc, he, hg, h1, h2, h3⟩ := ih (compensateOne compFails s st)
      by_cases hcf : compFails st <;>
        simp_all [List.foldl_cons, compensateOne, persistP, hcf, List.filter_cons]

@[simp]
theorem runCompensations_persisted (compFails : Step → Bool) (s : SystemState) :
    (runCompensations compFails s).persisted =
      s.persisted ++ (s.sagaComps.reverse.filter (fun st => !compFails st)).map
        (fun st => persistPlain (compStatus st)) :=
  (foldl_compensateOne_spec compFails s.sagaComps.reverse s).1

@[simp]
theorem runCompensations_compInvoked (compFails : Step → Bool) (s : SystemState) :
    (runCompensations compFails s).compInvoked = s.compInvoked ++ s.sagaComps.reverse :=
  (foldl_compensateOne_spec compFails s.sagaComps.reverse s).2.1

@[simp]
theorem runCompensations_events (compFails : Step → Bool) (s : SystemState) :
    (runCompensations compFails s).events =
      s.events ++ [plainEvent "ORDER_SAGA_COMPENSATED"] := by
  show (s.sagaComps.reverse.foldl (compensateOne compFails) s).events ++
      [plainEvent "ORDER_SAGA_COMPENSATED"] =
    s.events ++ [plainEvent "ORDER_SAGA_COMPENSATED"]
  rw [(foldl_compensateOne_spec compFails s.sagaComps.reverse s).2.2.1]

@[simp]
theorem runCompensations_sagaComps (compFails : Step → Bool) (s : SystemState) :
    (runCompensations compFails s).sagaComps = s.sagaComps :=
  (foldl_compensateOne_spec compFails s.sagaComps.reverse s).2.2.2.1

@[simp]
theorem runCompensations_cmsCalls (compFails : Step → Bool) (s : SystemState) :
    (runCompensations compFails s).cmsCalls = s.cmsCalls :=
  (foldl_compensateOne_spec compFails s.sagaComps.reverse s).2.2.2.2.1

@[simp]
theorem runCompensations_wmsCalls (compFails : Step → Bool) (s : SystemState) :
    (runCompensations compFails s).wmsCalls = s.wmsCalls :=
  (foldl_compensateOne_spec compFails s.sagaComps.reverse s).2.2.2.2.2.1

@[simp]
theorem runCompensations_rosCalls (compFails : Step → Bool) (s : SystemState) :
    (runCompensations compFails s).rosCalls = s.rosCalls :=
  (foldl_compensateOne_spec compFails s.sagaComps.reverse s).2.2.2.2.2.2

/-- Effect of a successful saga step. -/
theorem runStep_ok_spec (ops : Step → Nat → Option AdapterError) (compFails : Step → Bool)
    (st : Step) (s : SystemState) (hok : (runStep ops compFails st s).2 = none) :
    (runStep ops compFails st s).1.persisted =
      s.persisted ++ [persistPlain (successStatus st)] ∧
    (runStep ops compFails st s).1.sagaComps = s.sagaComps ++ [st] ∧
    (runStep ops compFails st s).1.compInvoked = s.compInvoked ∧
    (runStep ops compFails st s).1.events =
      s.events ++ [plainEvent (startedEvent st)] ++
        (stepRetry ops st s).events.map plainEvent ++ [plainEvent (successStatus st)] ∧
    (∀ st2, st2 ≠ st → callsOf (runStep ops compFails st s).1 st2 = callsOf s st2) := by
  cases hr : (stepRetry ops st s).result with
  | error e => simp [runStep, hr] at hok
  | ok v =>
      refine ⟨?_, ?_, ?_, ?_, fun st2 hne => ?_⟩
      · simp [runStep, hr, emitE, persistP]
      · simp [runStep, hr, emitE, persistP]
      · simp [runStep, hr, emitE, persistP]
      · simp [runStep, hr, emitE, persistP]
      · cases st <;> cases st2 <;>
          first
            | exact absurd rfl hne
            | simp [runStep, hr, emitE, persistP, setHealth, addCalls, callsOf]

/-- Effect of a saga step whose retry budget is exhausted: the recorded
compensations run in reverse insertion order (persisting the
compensation statuses of the actions that do not themselves throw), the
compensated event is emitted, and the terminal error is re-thrown. -/
theorem runStep_err_spec (ops : Step → Nat → Option AdapterError) (compFails : Step → Bool)
    (st : Step) (s : SystemState) (e : TerminalError)
    (herr : (runStep ops compFails st s).2 = some e) :
    (stepRetry ops st s).result = .error e ∧
    (runStep ops compFails st s).1.persisted =
      s.persisted ++ (s.sagaComps.reverse.filter (fun st2 => !compFails st2)).map
        (fun st2 => persistPlain (compStatus st2)) ∧
    (runStep ops compFails st s).1.sagaComps = s.sagaComps ∧
    (runStep ops compFails st s).1.compInvoked = s.compInvoked ++ s.sagaComps.reverse ∧
    (runStep ops compFails st s).1.events =
      s.events ++ [plainEvent (startedEvent st)] ++
        (stepRetry ops st s).events.map plainEvent ++
        [plainEvent "ORDER_SAGA_COMPENSATED"] ∧
    (∀ st2, st2 ≠ st → callsOf (runStep ops compFails st s).1 st2 = callsOf s st2) := by
  cases hr : (stepRetry ops st s).result with
  | ok v => simp [runStep, hr] at herr
  | error e2 =>
      have he2 : e2 = e := by simpa [runStep, hr] using herr
      subst he2
      refine ⟨rfl, ?_, ?_, ?_, ?_, fun st2 hne => ?_⟩
      · simp [runStep, hr, emitE]
      · simp [runStep, hr, emitE]
      · simp [runStep, hr, emitE]
      · simp [runStep, hr, emitE]
      · cases st <;> cases st2 <;>
          first
            | exact absurd rfl hne
            | simp [runStep, hr, emitE, setHealth, addCalls, callsOf]

/-- Reduction of `runSaga` when step 1 fails terminally. -/
theorem runSaga_fail1 (ops : Step → Nat → Option AdapterError) (compFails : Step → Bool)
    (s0 : SystemState) (e : TerminalError)
    (h1 : (runStep ops compFails .cms s0).2 = some e) :
    runSaga ops compFails s0 = failOrder (runStep ops compFails .cms s0).1 e := by
  unfold runSaga
  split
  · rename_i s1 e1 heq1
    rw [heq1] at h1
    simp at h1
    subst h1
    simp [heq1]
  · rename_i s1 heq1
    rw [heq1] at h1
    simp at h1

/-- Reduction of `runSaga` when step 1 succeeds and step 2 fails
terminally. -/
theorem runSaga_fail2 (ops : Step → Nat → Option AdapterError) (compFails : Step → Bool)
    (s0 : SystemState) (e : TerminalError)
    (h1 : (runStep ops compFails .cms s0).2 = none)
    (h2 : (runStep ops compFails .wms (runStep ops compFails .cms s0).1).2 = some e) :
    runSaga ops compFails s0 =
      failOrder (runStep ops compFails .wms (runStep ops compFails .cms s0).1).1 e := by
  unfold runSaga
  split
  · rename_i s1 e1 heq1
    rw [heq1] at h1
    simp at h1
  · rename_i s1 heq1
    rw [heq1] at h2
    simp only at h2
    split
    · rename_i s2 e2 heq2
      rw [heq2] at h2
      simp at h2
      subst h2
      simp [heq1, heq2]
    · rename_i s2 heq2
      rw [heq2] at h2
      simp at h2

/-- Reduction of `runSaga` when steps 1 and 2 succeed and step 3 fails
terminally. -/
theorem runSaga_fail3 (ops : Step → Nat → Option AdapterError) (compFails : Step → Bool)
    (s0 : SystemState) (e : TerminalError)
    (h1 : (runStep ops compFails .cms s0).2 = none)
    (h2 : (runStep ops compFails .wms (runStep ops compFails .cms s0).1).2 = none)
    (h3 : (runStep ops compFails .ros
      (runStep ops compFails .wms (runStep ops compFails .cms s0).1).1).2 = some e) :
    runSaga ops compFails s0 =
      failOrder (runStep ops compFails .ros
        (runStep ops compFails .wms (runStep ops compFails .cms s0).1).1).1 e := by
  unfold runSaga
  split
  · rename_i s1 e1 heq1
    rw [heq1] at h1
    simp at h1
  · rename_i s1 heq1
    rw [heq1] at h2 h3
    simp only at h2 h3
    split
    · rename_i s2 e2 heq2
      rw [heq2] at h2
      simp at h2
    · rename_i s2 heq2
      rw [heq2] at h3
      simp only at h3
      split
      · rename_i s3 e3 heq3
        rw [heq3] at h3
        simp at h3
        subst h3
        simp [heq1, heq2, heq3]
      · rename_i s3 heq3
        rw [heq3] at h3
        simp at h3

/-- Reduction of `runSaga` when all three steps succeed. -/
theorem runSaga_success (ops : Step → Nat → Option AdapterError) (compFails : Step → Bool)
    (s0 : SystemState)
    (h1 : (runStep ops compFails .cms s0).2 = none)
    (h2 : (runStep ops compFails .wms (runStep ops compFails .cms s0).1).2 = none)
    (h3 : (runStep ops compFails .ros
      (runStep ops compFails .wms (runStep ops compFails .cms s0).1).1).2 = none) :
    runSaga ops compFails s0 =
      finishOrder (runStep ops compFails .ros
        (runStep ops compFails .wms (runStep ops compFails .cms s0).1).1).1 := by
  unfold runSaga
  split
  · rename_i s1 e1 heq1
    rw [heq1] at h1
    simp at h1
  · rename_i s1 heq1
    rw [heq1] at h2 h3
    simp only at h2 h3
    split
    · rename_i s2 e2 heq2
      rw [heq2] at h2
      simp at h2
    · rename_i s2 heq2
      rw [heq2] at h3
      simp only at h3
      split
      · rename_i s3 e3 heq3
        rw [heq3] at h3
        simp at h3
      · rename_i s3 heq3
        simp [heq1, heq2, heq3]

/-- Any terminal error produced by the retry executor carries the
service id it was invoked with and `MAX_RETRY_ATTEMPTS + 1` total
attempts (the budget is always fully used once the first attempt
fails). -/
theorem callRetryAux_error_inv (sid : String) (op : Nat → Option AdapterError) :
    ∀ fuel h t rc e, MAX_RETRY_ATTEMPTS - rc ≤ fuel → rc ≤ MAX_RETRY_ATTEMPTS →
      (callRetryAux sid op fuel h t rc).result = .error e →
      e.serviceName = sid ∧ e.retryAttempts = MAX_RETRY_ATTEMPTS + 1 := by
  intro fuel
  induction fuel with
  | zero =>
      intro h t rc e hf hrc5 herr
      have hrc : rc = MAX_RETRY_ATTEMPTS := by omega
      subst hrc
      have hlt : ¬ MAX_RETRY_ATTEMPTS < MAX_RETRY_ATTEMPTS := by omega
      unfold callRetryAux at herr
      cases hc : (isServiceAvailable t h).1 <;> cases hoe : op MAX_RETRY_ATTEMPTS <;>
        simp [hc, hoe, hlt] at herr <;>
        simp [← herr]
  | succ fuel' ih =>
      intro h t rc e hf hrc5 herr
      by_cases hrc : rc < MAX_RETRY_ATTEMPTS
      · unfold callRetryAux at herr
        cases hc : (isServiceAvailable t h).1
        · simp only [hc] at herr
          simp [hrc] at herr
          exact ih _ _ _ _ (by omega) (by omega) herr
        · cases hoe : op rc
          · simp [hc, hoe] at herr
          · simp only [hc, hoe] at herr
            simp [hrc] at herr
            exact ih _ _ _ _ (by omega) (by omega) herr
      · have hrc2 : rc = MAX_RETRY_ATTEMPTS := by omega
        subst hrc2
        unfold callRetryAux at herr
        cases hc : (isServiceAvailable t h).1 <;> cases hoe : op MAX_RETRY_ATTEMPTS <;>
          simp [hc, hoe, hrc] at herr <;>
          simp [← herr]

/-- Every event emitted inside the retry executor is the service's
retry-scheduled event. -/
theorem callRetryAux_events_name (sid : String) (op : Nat → Option AdapterError) :
    ∀ fuel h t rc x, x ∈ (callRetryAux sid op fuel h t rc).events →
      x = jsUpper sid ++ "_RETRY_SCHEDULED" := by
  intro fuel
  induction fuel with
  | zero =>
      intro h t rc x hx
      unfold callRetryAux at hx
      by_cases hrc : rc < MAX_RETRY_ATTEMPTS <;>
        cases hc : (isServiceAvailable t h).1 <;> cases hoe : op rc <;>
        simp [hc, hoe, hrc] at hx
  | succ fuel' ih =>
      intro h t rc x hx
      unfold callRetryAux at hx
      by_cases hrc : rc < MAX_RETRY_ATTEMPTS
      · cases hc : (isServiceAvailable t h).1
        · simp only [hc] at hx
          simp [hrc] at hx
          rcases hx with rfl | hx
          · rfl
          · exact ih _ _ _ _ hx
        · cases hoe : op rc
          · simp [hc, hoe] at hx
          · simp only [hc, hoe] at hx
            simp [hrc] at hx
            rcases hx with rfl | hx
            · rfl
            · exact ih _ _ _ _ hx
      · cases hc : (isServiceAvailable t h).1 <;> cases hoe : op rc <;>
          simp [hc, hoe, hrc] at hx

/-! ## Claims C2, C3, C7 (saga behaviour) -/

/-- C2: for every order whose step `k` fails terminally after retry
exhaustion (all earlier steps having succeeded), the compensation
actions recorded for the completed steps are each invoked exactly once,
in reverse insertion order; the persisted status sequence ends with
`FAILED`; and a compensation action that itself throws is only logged —
it removes its own status write but does not prevent the remaining
compensations (the invocation log and the `FAILED` outcome are the same
for every `compFails`). -/
theorem C2_compensation_protocol (ops : Step → Nat → Option AdapterError)
    (compFails : Step → Bool) (t0 : Nat) (k : Fin 3) (e : TerminalError)
    (hpre : ∀ j : Fin 3, j < k → (stepOutcome ops compFails t0 j).2 = none)
    (hfail : (stepOutcome ops compFails t0 k).2 = some e) :
    (runSaga ops compFails (initialSystem t0)).compInvoked =
      (stepsList.take k.val).reverse ∧
    (runSaga ops compFails (initialSystem t0)).persisted.map PersistEntry.status =
      "SUBMITTED" ::
        ((stepsList.take k.val).map successStatus ++
         ((stepsList.take k.val).reverse.filter (fun st => !compFails st)).map compStatus ++
         ["FAILED"]) := by
  fin_cases k
  · simp only [stepOutcome, sagaRun1] at hfail
    obtain ⟨_, hps, hsg, hci, hev, hcl⟩ :=
      runStep_err_spec ops compFails .cms (initialSystem t0) e hfail
    rw [runSaga_fail1 ops compFails (initialSystem t0) e hfail]
    constructor
    · simp only [failOrder, emitE, persistP]
      rw [hci]
      simp [initialSystem, stepsList]
    · simp only [failOrder, emitE, persistP]
      rw [hps]
      simp [initialSystem, stepsList, persistPlain]
  · have h1 := hpre ⟨0, by omega⟩ (by decide)
    simp only [stepOutcome, sagaRun1] at h1
    simp only [stepOutcome, sagaRun2, sagaRun1] at hfail
    obtain ⟨hps1, hsg1, hci1, hev1, hcl1⟩ :=
      runStep_ok_spec ops compFails .cms (initialSystem t0) h1
    obtain ⟨_, hps2, hsg2, hci2, hev2, hcl2⟩ :=
      runStep_err_spec ops compFails .wms (runStep ops compFails .cms (initialSystem t0)).1
        e hfail
    rw [runSaga_fail2 ops compFails (initialSystem t0) e h1 hfail]
    constructor
    · simp only [failOrder, emitE, persistP]
      rw [hci2, hci1, hsg1]
      simp [initialSystem, stepsList]
    · simp only [failOrder, emitE, persistP]
      rw [hps2, hps1, hsg1]
      simp [initialSystem, stepsList, persistPlain]
  · have h1 := hpre ⟨0, by omega⟩ (by decide)
    have h2 := hpre ⟨1, by omega⟩ (by decide)
    simp only [stepOutcome, sagaRun1] at h1
    simp only [stepOutcome, sagaRun2, sagaRun1] at h2
    simp only [stepOutcome, sagaRun3, sagaRun2, sagaRun1] at hfail
    obtain ⟨hps1, hsg1, hci1, hev1, hcl1⟩ :=
      runStep_ok_spec ops compFails .cms (initialSystem t0) h1
    obtain ⟨hps2, hsg2, hci2, hev2, hcl2⟩ :=
      runStep_ok_spec ops compFails .wms (runStep ops compFails .cms (initialSystem t0)).1 h2
    obtain ⟨_, hps3, hsg3, hci3, hev3, hcl3⟩ :=
      runStep_err_spec ops compFails .ros
        (runStep ops compFails .wms (runStep ops compFails .cms (initialSystem t0)).1).1
        e hfail
    rw [runSaga_fail3 ops compFails (initialSystem t0) e h1 h2 hfail]
    constructor
    · simp only [failOrder, emitE, persistP]
      rw [hci3, hci2, hci1, hsg2, hsg1]
      simp [initialSystem, stepsList]
    · simp only [failOrder, emitE, persistP]
      rw [hps3, hps2, hps1, hsg2, hsg1]
      simp [initialSystem, stepsList, persistPlain]

/-- C2 (witness): step 1 succeeds, step 2 always fails, no compensation
action throws. -/
theorem C2_compensation_protocol_witness :
    (runSaga (fun st _ => match st with
        | .cms => none
        | _ => some { errorType := some "X", suggestedAction := some "Y" })
      (fun _ => false) (initialSystem 0)).compInvoked =
      (stepsList.take (1 : Fin 3).val).reverse ∧
    (runSaga (fun st _ => match st with
        | .cms => none
        | _ => some { errorType := some "X", suggestedAction := some "Y" })
      (fun _ => false) (initialSystem 0)).persisted.map PersistEntry.status =
      "SUBMITTED" ::
        ((stepsList.take (1 : Fin 3).val).map successStatus ++
         ((stepsList.take (1 : Fin 3).val).reverse.filter
            (fun st => !(fun _ : Step => false) st)).map compStatus ++
         ["FAILED"]) :=
  C2_compensation_protocol
    (fun st _ => match st with
      | .cms => none
      | _ => some { errorType := some "X", suggestedAction := some "Y" })
    (fun _ => false) 0 1
    { serviceName := "wms", retryAttempts := 6, errorType := some "X",
      suggestedAction := some "Y" }
    (by decide) (by decide)

@[simp]
theorem callsOf_failOrder (s : SystemState) (e : TerminalError) (st : Step) :
    callsOf (failOrder s e) st = callsOf s st := by
  cases st <;> rfl

@[simp]
theorem eventType_plainEvent (n : String) : (plainEvent n).eventType = n := rfl

theorem stepRetry_events_name (ops : Step → Nat → Option AdapterError) (st : Step)
    (s : SystemState) (x : String) (hx : x ∈ (stepRetry ops st s).events) :
    x = jsUpper (serviceName st) ++ "_RETRY_SCHEDULED" :=
  callRetryAux_events_name (serviceName st) (ops st) (MAX_RETRY_ATTEMPTS + 1)
    (healthOf s st) s.time 0 x hx

theorem stepRetry_error_inv (ops : Step → Nat → Option AdapterError) (st : Step)
    (s : SystemState) (e : TerminalError)
    (hre : (stepRetry ops st s).result = .error e) :
    e.serviceName = serviceName st ∧ e.retryAttempts = MAX_RETRY_ATTEMPTS + 1 :=
  callRetryAux_error_inv (serviceName st) (ops st) (MAX_RETRY_ATTEMPTS + 1)
    (healthOf s st) s.time 0 e (by decide) (by decide) hre

/-- An event type other than the step's started event, its success
event, and its retry-scheduled event is emitted by a successful step
only if it was already present. -/
theorem ok_step_event_not_mem (ops : Step → Nat → Option AdapterError)
    (compFails : Step → Bool) (st : Step) (s : SystemState) (n : String)
    (hok : (runStep ops compFails st s).2 = none)
    (hbase : n ∉ s.events.map EventEntry.eventType)
    (h1 : n ≠ startedEvent st) (h2 : n ≠ successStatus st)
    (h3 : n ≠ jsUpper (serviceName st) ++ "_RETRY_SCHEDULED") :
    n ∉ (runStep ops compFails st s).1.events.map EventEntry.eventType := by
  obtain ⟨_, _, _, hev, _⟩ := runStep_ok_spec ops compFails st s hok
  rw [hev]
  intro hx
  simp only [List.map_append, List.mem_append, List.map_map] at hx
  rcases hx with ((hx | hx) | hx) | hx
  · exact hbase hx
  · simp only [List.map_cons, List.map_nil, List.mem_singleton,
      eventType_plainEvent] at hx
    exact h1 hx
  · obtain ⟨a, ha, heq⟩ := List.mem_map.mp hx
    have han : a = n := heq
    exact h3 (han ▸ stepRetry_events_name ops st s a ha)
  · simp only [List.map_cons, List.map_nil, List.mem_singleton,
      eventType_plainEvent] at hx
    exact h2 hx

/-- Likewise for a step that fails terminally (its compensation phase
only adds the step's started event, its retry-scheduled events, and
`ORDER_SAGA_COMPENSATED`). -/
theorem err_step_event_not_mem (ops : Step → Nat → Option AdapterError)
    (compFails : Step → Bool) (st : Step) (s : SystemState) (e : TerminalError) (n : String)
    (herr : (runStep ops compFails st s).2 = some e)
    (hbase : n ∉ s.events.map EventEntry.eventType)
    (h1 : n ≠ startedEvent st)
    (h3 : n ≠ jsUpper (serviceName st) ++ "_RETRY_SCHEDULED")
    (h4 : n ≠ "ORDER_SAGA_COMPENSATED") :
    n ∉ (runStep ops compFails st s).1.events.map EventEntry.eventType := by
  obtain ⟨_, _, _, _, hev, _⟩ := runStep_err_spec ops compFails st s e herr
  rw [hev]
  intro hx
  simp only [List.map_append, List.mem_append, List.map_map] at hx
  rcases hx with ((hx | hx) | hx) | hx
  · exact hbase hx
  · simp only [List.map_cons, List.map_nil, List.mem_singleton,
      eventType_plainEvent] at hx
    exact h1 hx
  · obtain ⟨a, ha, heq⟩ := List.mem_map.mp hx
    have han : a = n := heq
    exact h3 (han ▸ stepRetry_events_name ops st s a ha)
  · simp only [List.map_cons, List.map_nil, List.mem_singleton,
      eventType_plainEvent] at hx
    exact h4 hx

theorem failOrder_event_not_mem (s : SystemState) (e : TerminalError) (n : String)
    (hbase : n ∉ s.events.map EventEntry.eventType) (h : n ≠ "ORDER_FAILED") :
    n ∉ (failOrder s e).events.map EventEntry.eventType := by
  intro hx
  simp only [failOrder, emitE, persistP, List.map_append, List.mem_append] at hx
  rcases hx with hx | hx
  · exact hbase hx
  · simp only [List.map_cons, List.map_nil, List.mem_singleton] at hx
    exact h hx

/-- C3: for every order in which step `k`'s retry budget is exhausted
(all earlier steps having succeeded), no later step's adapter is ever
invoked and no later step is even started; the last persisted row is
`FAILED` carrying the structured error detail (error type, suggested
action, retry count); the last emitted event is `ORDER_FAILED` carrying
error type, suggested action, failed service and retry count; and the
terminal error names the failing step's service with
`MAX_RETRY_ATTEMPTS + 1` attempts. -/
theorem C3_terminal_failure_stops (ops : Step → Nat → Option AdapterError)
    (compFails : Step → Bool) (t0 : Nat) (k : Fin 3) (e : TerminalError)
    (hpre : ∀ j : Fin 3, j < k → (stepOutcome ops compFails t0 j).2 = none)
    (hfail : (stepOutcome ops compFails t0 k).2 = some e) :
    (∀ j : Fin 3, k < j →
      callsOf (runSaga ops compFails (initialSystem t0)) (stepAt j) = 0 ∧
      startedEvent (stepAt j) ∉
        (runSaga ops compFails (initialSystem t0)).events.map EventEntry.eventType) ∧
    (runSaga ops compFails (initialSystem t0)).persisted.getLast? = some
      { status := "FAILED", errorType := e.errorType,
        suggestedAction := e.suggestedAction, retryAttempts := some e.retryAttempts } ∧
    (runSaga ops compFails (initialSystem t0)).events.getLast? = some
      { eventType := "ORDER_FAILED", failedService := some e.serviceName,
        errorType := some (e.errorType.getD "UNKNOWN"),
        suggestedAction := some (e.suggestedAction.getD "Contact system administrator"),
        retryAttempts := some e.retryAttempts } ∧
    e.serviceName = serviceName (stepAt k) ∧
    e.retryAttempts = MAX_RETRY_ATTEMPTS + 1 := by
  fin_cases k
  · simp only [stepOutcome, sagaRun1] at hfail
    obtain ⟨hre, hps, hsg, hci, hev, hcl⟩ :=
      runStep_err_spec ops compFails .cms (initialSystem t0) e hfail
    rw [runSaga_fail1 ops compFails (initialSystem t0) e hfail]
    refine ⟨fun j hj => ?_, ?_, ?_, stepRetry_error_inv ops .cms (initialSystem t0) e hre⟩
    · have hb0 : ∀ n2 : String, n2 ∉ ["ORDER_ACCEPTED", "DISTRIBUTED_TRANSACTION_START"] →
          n2 ∉ (initialSystem t0).events.map EventEntry.eventType := by
        intro n2 hn2
        simpa [initialSystem] using hn2
      fin_cases j
      · exact absurd hj (by decide)
      · refine ⟨?_, ?_⟩
        · simp only [callsOf_failOrder, stepAt]
          rw [hcl .wms (by decide)]
          simp [initialSystem, callsOf]
        · exact failOrder_event_not_mem _ e _
            (err_step_event_not_mem ops compFails .cms (initialSystem t0) e _ hfail
              (hb0 _ (by decide)) (by decide) (by decide) (by decide)) (by decide)
      · refine ⟨?_, ?_⟩
        · simp only [callsOf_failOrder, stepAt]
          rw [hcl .ros (by decide)]
          simp [initialSystem, callsOf]
        · exact failOrder_event_not_mem _ e _
            (err_step_event_not_mem ops compFails .cms (initialSystem t0) e _ hfail
              (hb0 _ (by decide)) (by decide) (by decide) (by decide)) (by decide)
    · simp only [failOrder, emitE, persistP]
      simp
    · simp only [failOrder, emitE, persistP]
      simp
  · have h1 := hpre ⟨0, by omega⟩ (by decide)
    simp only [stepOutcome, sagaRun1] at h1
    simp only [stepOutcome, sagaRun2, sagaRun1] at hfail
    obtain ⟨hps1, hsg1, hci1, hev1, hcl1⟩ :=
      runStep_ok_spec ops compFails .cms (initialSystem t0) h1
    obtain ⟨hre, hps2, hsg2, hci2, hev2, hcl2⟩ :=
      runStep_err_spec ops compFails .wms (runStep ops compFails .cms (initialSystem t0)).1
        e hfail
    rw [runSaga_fail2 ops compFails (initialSystem t0) e h1 hfail]
    refine ⟨fun j hj => ?_, ?_, ?_,
      stepRetry_error_inv ops .wms (runStep ops compFails .cms (initialSystem t0)).1 e hre⟩
    · have hb0 : ∀ n2 : String, n2 ∉ ["ORDER_ACCEPTED", "DISTRIBUTED_TRANSACTION_START"] →
          n2 ∉ (initialSystem t0).events.map EventEntry.eventType := by
        intro n2 hn2
        simpa [initialSystem] using hn2
      fin_cases j
      · exact absurd hj (by decide)
      · exact absurd hj (by decide)
      · refine ⟨?_, ?_⟩
        · simp only [callsOf_failOrder, stepAt]
          rw [hcl2 .ros (by decide), hcl1 .ros (by decide)]
          simp [initialSystem, callsOf]
        · exact failOrder_event_not_mem _ e _
            (err_step_event_not_mem ops compFails .wms
              (runStep ops compFails .cms (initialSystem t0)).1 e _ hfail
              (ok_step_event_not_mem ops compFails .cms (initialSystem t0) _ h1
                (hb0 _ (by decide)) (by decide) (by decide) (by decide))
              (by decide) (by decide) (by decide)) (by decide)
    · simp only [failOrder, emitE, persistP]
      simp
    · simp only [failOrder, emitE, persistP]
      simp
  · have h1 := hpre ⟨0, by omega⟩ (by decide)
    have h2 := hpre ⟨1, by omega⟩ (by decide)
    simp only [stepOutcome, sagaRun1] at h1
    simp only [stepOutcome, sagaRun2, sagaRun1] at h2
    simp only [stepOutcome, sagaRun3, sagaRun2, sagaRun1] at hfail
    obtain ⟨hre, hps3, hsg3, hci3, hev3, hcl3⟩ :=
      runStep_err_spec ops compFails .ros
        (runStep ops compFails .wms (runStep ops compFails .cms (initialSystem t0)).1).1
        e hfail
    rw [runSaga_fail3 ops compFails (initialSystem t0) e h1 h2 hfail]
    refine ⟨fun j hj => absurd hj (by fin_cases j <;> decide), ?_, ?_,
      stepRetry_error_inv ops .ros
        (runStep ops compFails .wms (runStep ops compFails .cms (initialSystem t0)).1).1
        e hre⟩
    · simp only [failOrder, emitE, persistP]
      simp
    · simp only [failOrder, emitE, persistP]
      simp

/-- C3 (witness): step 1 succeeds, step 2 always fails; the
route-optimization step is never started and its adapter never
invoked. -/
theorem C3_terminal_failure_stops_witness :
    (∀ j : Fin 3, (1 : Fin 3) < j →
      callsOf (runSaga (fun st _ => match st with
          | .cms => none
          | _ => some { errorType := some "X", suggestedAction := some "Y" })
        (fun _ => false) (initialSystem 0)) (stepAt j) = 0 ∧
      startedEvent (stepAt j) ∉
        (runSaga (fun st _ => match st with
            | .cms => none
            | _ => some { errorType := some "X", suggestedAction := some "Y" })
          (fun _ => false) (initialSystem 0)).events.map EventEntry.eventType) ∧
    (runSaga (fun st _ => match st with
        | .cms => none
        | _ => some { errorType := some "X", suggestedAction := some "Y" })
      (fun _ => false) (initialSystem 0)).persisted.getLast? = some
      { status := "FAILED", errorType := some "X", suggestedAction := some "Y",
        retryAttempts := some 6 } ∧
    (runSaga (fun st _ => match st with
        | .cms => none
        | _ => some { errorType := some "X", suggestedAction := some "Y" })
      (fun _ => false) (initialSystem 0)).events.getLast? = some
      { eventType := "ORDER_FAILED", failedService := some "wms",
        errorType := some ((some "X").getD "UNKNOWN"),
        suggestedAction := some ((some "Y").getD "Contact system administrator"),
        retryAttempts := some 6 } ∧
    "wms" = serviceName (stepAt (1 : Fin 3)) ∧
    (6 : Nat) = MAX_RETRY_ATTEMPTS + 1 :=
  C3_terminal_failure_stops
    (fun st _ => match st with
      | .cms => none
      | _ => some { errorType := some "X", suggestedAction := some "Y" })
    (fun _ => false) 0 1
    { serviceName := "wms", retryAttempts := 6, errorType := some "X",
      suggestedAction := some "Y" }
    (by decide) (by decide)

theorem failOrder_statuses (s : SystemState) (e : TerminalError) :
    (failOrder s e).persisted.map PersistEntry.status =
      s.persisted.map PersistEntry.status ++ ["FAILED"] := by
  simp [failOrder, emitE, persistP]

theorem finishOrder_statuses (s : SystemState) :
    (finishOrder s).persisted.map PersistEntry.status =
      s.persisted.map PersistEntry.status ++ ["READY_FOR_DELIVERY"] := by
  simp [finishOrder, emitE, persistP, persistPlain]

/-- C7 (amended): every status the order service persists for an order
is one of `SUBMITTED`, the three step statuses, `READY_FOR_DELIVERY`,
`FAILED`, or one of the three `*_COMPENSATION_EXECUTED` statuses
written by the compensation actions; `CANCELLED` is never persisted;
`FAILED` is terminal (persisted at most once and, when present, last);
and in a run with no failure the status sequence is exactly the strict
forward progression. -/
theorem C7_persisted_status_values (ops : Step → Nat → Option AdapterError)
    (compFails : Step → Bool) (t0 : Nat) :
    (∀ x ∈ (runSaga ops compFails (initialSystem t0)).persisted.map PersistEntry.status,
      x ∈ (["SUBMITTED", "CMS_VERIFIED", "WMS_REGISTERED", "ROS_OPTIMIZED",
            "READY_FOR_DELIVERY", "FAILED", "CMS_COMPENSATION_EXECUTED",
            "WMS_COMPENSATION_EXECUTED", "ROS_COMPENSATION_EXECUTED"] : List String)) ∧
    "CANCELLED" ∉
      (runSaga ops compFails (initialSystem t0)).persisted.map PersistEntry.status ∧
    ((runSaga ops compFails (initialSystem t0)).persisted.map
      PersistEntry.status).count "FAILED" ≤ 1 ∧
    ("FAILED" ∈ (runSaga ops compFails (initialSystem t0)).persisted.map
        PersistEntry.status →
      ((runSaga ops compFails (initialSystem t0)).persisted.map
        PersistEntry.status).getLast? = some "FAILED") ∧
    ("FAILED" ∉ (runSaga ops compFails (initialSystem t0)).persisted.map
        PersistEntry.status →
      (runSaga ops compFails (initialSystem t0)).persisted.map PersistEntry.status =
        ["SUBMITTED", "CMS_VERIFIED", "WMS_REGISTERED", "ROS_OPTIMIZED",
         "READY_FOR_DELIVERY"]) := by
  cases ho1 : (runStep ops compFails .cms (initialSystem t0)).2 with
  | some e1 =>
      obtain ⟨_, hps, hsg, _, _, _⟩ :=
        runStep_err_spec ops compFails .cms (initialSystem t0) e1 ho1
      have hS : (runSaga ops compFails (initialSystem t0)).persisted.map
          PersistEntry.status = ["SUBMITTED", "FAILED"] := by
        rw [runSaga_fail1 ops compFails (initialSystem t0) e1 ho1, failOrder_statuses,
          hps]
        simp [initialSystem, persistPlain]
        all_goals decide
      rw [hS]
      decide
  | none =>
      obtain ⟨hps1, hsg1, _, _, _⟩ :=
        runStep_ok_spec ops compFails .cms (initialSystem t0) ho1
      cases ho2 : (runStep ops compFails .wms
          (runStep ops compFails .cms (initialSystem t0)).1).2 with
      | some e2 =>
          obtain ⟨_, hps2, hsg2, _, _, _⟩ :=
            runStep_err_spec ops compFails .wms
              (runStep ops compFails .cms (initialSystem t0)).1 e2 ho2
          cases hcfc : compFails Step.cms with
          | true =>
              have hS : (runSaga ops compFails (initialSystem t0)).persisted.map
                  PersistEntry.status = ["SUBMITTED", "CMS_VERIFIED", "FAILED"] := by
                rw [runSaga_fail2 ops compFails (initialSystem t0) e2 ho1 ho2,
                  failOrder_statuses, hps2, hps1, hsg1]
                simp [initialSystem, persistPlain, successStatus, hcfc]
                all_goals decide
              rw [hS]
              decide
          | false =>
              have hS : (runSaga ops compFails (initialSystem t0)).persisted.map
                  PersistEntry.status =
                  ["SUBMITTED", "CMS_VERIFIED", "CMS_COMPENSATION_EXECUTED",
                   "FAILED"] := by
                rw [runSaga_fail2 ops compFails (initialSystem t0) e2 ho1 ho2,
                  failOrder_statuses, hps2, hps1, hsg1]
                simp [initialSystem, persistPlain, successStatus, compStatus, hcfc]
                all_goals decide
              rw [hS]
              decide
      | none =>
          obtain ⟨hps2, hsg2, _, _, _⟩ :=
            runStep_ok_spec ops compFails .wms
              (runStep ops compFails .cms (initialSystem t0)).1 ho2
          cases ho3 : (runStep ops compFails .ros
              (runStep ops compFails .wms
                (runStep ops compFails .cms (initialSystem t0)).1).1).2 with
          | some e3 =>
              obtain ⟨_, hps3, hsg3, _, _, _⟩ :=
                runStep_err_spec ops compFails .ros
                  (runStep ops compFails .wms
                    (runStep ops compFails .cms (initialSystem t0)).1).1 e3 ho3
              cases hcfc : compFails Step.cms with
              | true =>
                  cases hcfw : compFails Step.wms with
                  | true =>
                      have hS : (runSaga ops compFails (initialSystem t0)).persisted.map
                          PersistEntry.status =
                          ["SUBMITTED", "CMS_VERIFIED", "WMS_REGISTERED", "FAILED"] := by
                        rw [runSaga_fail3 ops compFails (initialSystem t0) e3 ho1 ho2 ho3,
                          failOrder_statuses, hps3, hps2, hps1, hsg2, hsg1]
                        simp [initialSystem, persistPlain, successStatus, compStatus,
                          hcfc, hcfw]
                        all_goals decide
                      rw [hS]
                      decide
                  | false =>
                      have hS : (runSaga ops compFails (initialSystem t0)).persisted.map
                          PersistEntry.status =
                          ["SUBMITTED", "CMS_VERIFIED", "WMS_REGISTERED",
                           "WMS_COMPENSATION_EXECUTED", "FAILED"] := by
                        rw [runSaga_fail3 ops compFails (initialSystem t0) e3 ho1 ho2 ho3,
                          failOrder_statuses, hps3, hps2, hps1, hsg2, hsg1]
                        simp [initialSystem, persistPlain, successStatus, compStatus,
                          hcfc, hcfw]
                        all_goals decide
                      rw [hS]
                      decide
              | false =>
                  cases hcfw : compFails Step.wms with
                  | true =>
                      have hS : (runSaga ops compFails (initialSystem t0)).persisted.map
                          PersistEntry.status =
                          ["SUBMITTED", "CMS_VERIFIED", "WMS_REGISTERED",
                           "CMS_COMPENSATION_EXECUTED", "FAILED"] := by
                        rw [runSaga_fail3 ops compFails (initialSystem t0) e3 ho1 ho2 ho3,
                          failOrder_statuses, hps3, hps2, hps1, hsg2, hsg1]
                        simp [initialSystem, persistPlain, successStatus, compStatus,
                          hcfc, hcfw]
                        all_goals decide
                      rw [hS]
                      decide
                  | false =>
                      have hS : (runSaga ops compFails (initialSystem t0)).persisted.map
                          PersistEntry.status =
                          ["SUBMITTED", "CMS_VERIFIED", "WMS_REGISTERED",
                           "WMS_COMPENSATION_EXECUTED", "CMS_COMPENSATION_EXECUTED",
                           "FAILED"] := by
                        rw [runSaga_fail3 ops compFails (initialSystem t0) e3 ho1 ho2 ho3,
                          failOrder_statuses, hps3, hps2, hps1, hsg2, hsg1]
                        simp [initialSystem, persistPlain, successStatus, compStatus,
                          hcfc, hcfw]
                        all_goals decide
                      rw [hS]
                      decide
          | none =>
              obtain ⟨hps3, hsg3, _, _, _⟩ :=
                runStep_ok_spec ops compFails .ros
                  (runStep ops compFails .wms
                    (runStep ops compFails .cms (initialSystem t0)).1).1 ho3
              have hS : (runSaga ops compFails (initialSystem t0)).persisted.map
                  PersistEntry.status =
                  ["SUBMITTED", "CMS_VERIFIED", "WMS_REGISTERED", "ROS_OPTIMIZED",
                   "READY_FOR_DELIVERY"] := by
                rw [runSaga_success ops compFails (initialSystem t0) ho1 ho2 ho3,
                  finishOrder_statuses, hps3, hps2, hps1]
                simp [initialSystem, persistPlain, successStatus]
                all_goals decide
              rw [hS]
              decide

/-- C7 (counterexample): when step 1 succeeds and step 2 fails
terminally, the compensation action persists
`CMS_COMPENSATION_EXECUTED` via `updateOrderStatus` — a status outside
the set {SUBMITTED, CMS_VERIFIED, WMS_REGISTERED, ROS_OPTIMIZED,
READY_FOR_DELIVERY, FAILED, CANCELLED} claimed to be exhaustive. -/
theorem C7_counterexample :
    "CMS_COMPENSATION_EXECUTED" ∈
      ((runSaga (fun st _ => match st with
          | .cms => none
          | _ => some { errorType := none, suggestedAction := none })
        (fun _ => false) (initialSystem 0)).persisted.map PersistEntry.status) ∧
    "CMS_COMPENSATION_EXECUTED" ∉ (["SUBMITTED", "CMS_VERIFIED", "WMS_REGISTERED",
      "ROS_OPTIMIZED", "READY_FOR_DELIVERY", "FAILED", "CANCELLED"] : List String) :=
  ⟨by decide, by decide⟩

/-- C7 (witness for the amended theorem): in a failing run `FAILED` is
the last persisted status. -/
theorem C7_persisted_status_values_witness :
    ((runSaga (fun st _ => match st with
        | .cms => none
        | _ => some { errorType := none, suggestedAction := none })
      (fun _ => false) (initialSystem 0)).persisted.map
        PersistEntry.status).getLast? = some "FAILED" :=
  (C7_persisted_status_values (fun st _ => match st with
      | .cms => none
      | _ => some { errorType := none, suggestedAction := none })
    (fun _ => false) 0).2.2.2.1 (by decide)

/-! ## Status query (GET /api/orders/:orderId/status, lines 910-1084)
and order submission (POST /api/orders, lines 438-584)

The status endpoint derives its progress view purely from the persisted
order row; the relevant columns are the status and the four stage
timestamps. -/

structure OrderRecord where
  status : String
  cms_verified_at : Option Nat
  wms_registered_at : Option Nat
  ros_optimized_at : Option Nat
  ready_for_delivery_at : Option Nat
deriving DecidableEq

/-- `completedSteps` (lines 931-937): one per non-null step timestamp. -/
def completedSteps (o : OrderRecord) : Nat :=
  (if o.cms_verified_at.isSome then 1 else 0) +
  (if o.wms_registered_at.isSome then 1 else 0) +
  (if o.ros_optimized_at.isSome then 1 else 0)

/-- `currentStage` (lines 939-955): the if/else-if chain checking the
timestamps from the latest stage backwards. -/
def currentStage (o : OrderRecord) : String :=
  if o.ready_for_delivery_at.isSome then "READY_FOR_DELIVERY"
  else if o.ros_optimized_at.isSome then "FINALIZING"
  else if o.wms_registered_at.isSome then "ROS_PROCESSING"
  else if o.cms_verified_at.isSome then "WMS_PROCESSING"
  else if o.status = "PROCESSING" then "CMS_PROCESSING"
  else "QUEUED"

/-- JavaScript `Math.round (num / den)` for non-negative integer
arguments: round-half-up, `⌊num/den + 1/2⌋`. -/
def jsRound (num den : Nat) : Nat := (2 * num + den) / (2 * den)

/-- `progressPercentage` (line 957): `Math.round (completedSteps / 3 * 100)`. -/
def progressPercentage (o : OrderRecord) : Nat :=
  jsRound (completedSteps o * 100) 3

/-- Spec wording: `completedSteps` = count of the three step timestamps
that are non-null. -/
def completedStepsSpec (o : OrderRecord) : Nat :=
  ([o.cms_verified_at, o.wms_registered_at, o.ros_optimized_at].filter
    (fun x => x.isSome)).length

/-- Spec wording (amended): READY_FOR_DELIVERY once finalized,
FINALIZING when all three steps are done but the order is not yet
finalized, the first not-yet-completed step's processing stage when some
step is done, and for an untouched order CMS_PROCESSING when the status
is literally "PROCESSING" and the queued stage otherwise. -/
def currentStageSpec (o : OrderRecord) : String :=
  if o.ready_for_delivery_at.isSome then "READY_FOR_DELIVERY"
  else if completedStepsSpec o = 3 then "FINALIZING"
  else if completedStepsSpec o = 0 then
    (if o.status = "PROCESSING" then "CMS_PROCESSING" else "QUEUED")
  else
    (([(o.cms_verified_at, "CMS_PROCESSING"), (o.wms_registered_at, "WMS_PROCESSING"),
       (o.ros_optimized_at, "ROS_PROCESSING")].find?
        (fun p => !p.1.isSome)).map Prod.snd).getD "QUEUED"

theorem completedSteps_le_three (o : OrderRecord) : completedSteps o ≤ 3 := by
  unfold completedSteps
  by_cases h1 : o.cms_verified_at.isSome <;> by_cases h2 : o.wms_registered_at.isSome <;>
    by_cases h3 : o.ros_optimized_at.isSome <;> simp [h1, h2, h3]

theorem jsRound_eq_round (c : Nat) (hc : c ≤ 3) :
    (jsRound (c * 100) 3 : ℤ) = round ((c : ℚ) / 3 * 100) := by
  interval_cases c <;> norm_num [jsRound, round_eq]

/-- C6 (counterexample): a record with all three step timestamps set but
not yet finalized yields `FINALIZING`, not `READY_FOR_DELIVERY`. -/
theorem C6_counterexample :
    currentStage ⟨"ROS_OPTIMIZED", some 1, some 2, some 3, none⟩ = "FINALIZING" ∧
    "FINALIZING" ≠ "READY_FOR_DELIVERY" := by
  constructor
  · rfl
  · decide

/-- C6 (amended): for every persisted order record whose step timestamps
are monotone (a later step's timestamp implies the earlier one's), the
status endpoint derives `completedSteps` as the count of non-null step
timestamps, `percentage` as `round (completedSteps / 3 * 100)`, and
`currentStage` as: `READY_FOR_DELIVERY` once the finalization timestamp
is set, `FINALIZING` when all three steps are done but not finalized,
otherwise the first not-yet-completed step's stage, with
`CMS_PROCESSING` only when nothing is done and the status is literally
"PROCESSING", and `QUEUED` for an untouched order otherwise (in
particular for the `SUBMITTED` status this repository persists). -/
theorem C6_progress_derivation (o : OrderRecord)
    (hwm : o.wms_registered_at.isSome = true → o.cms_verified_at.isSome = true)
    (hrm : o.ros_optimized_at.isSome = true → o.wms_registered_at.isSome = true) :
    completedSteps o = completedStepsSpec o ∧
    (progressPercentage o : ℤ) = round ((completedStepsSpec o : ℚ) / 3 * 100) ∧
    currentStage o = currentStageSpec o := by
  have hcc : completedSteps o = completedStepsSpec o := by
    obtain ⟨st, c, w, r, rd⟩ := o
    cases c <;> cases w <;> cases r <;>
      simp [completedSteps, completedStepsSpec]
  refine ⟨hcc, ?_, ?_⟩
  · rw [progressPercentage, ← hcc]
    exact jsRound_eq_round (completedSteps o) (completedSteps_le_three o)
  · obtain ⟨st, c, w, r, rd⟩ := o
    cases c <;> cases w <;> cases r <;> cases rd <;>
      simp_all [currentStage, currentStageSpec, completedStepsSpec]

/-- C6 (witness): an order with step 1 complete is in `WMS_PROCESSING`
at 33 percent. -/
theorem C6_progress_derivation_witness :
    completedSteps ⟨"CMS_VERIFIED", some 5, none, none, none⟩ =
      completedStepsSpec ⟨"CMS_VERIFIED", some 5, none, none, none⟩ ∧
    ((progressPercentage ⟨"CMS_VERIFIED", some 5, none, none, none⟩ : ℤ) =
      round ((completedStepsSpec ⟨"CMS_VERIFIED", some 5, none, none, none⟩ : ℚ) /
        3 * 100)) ∧
    currentStage ⟨"CMS_VERIFIED", some 5, none, none, none⟩ =
      currentStageSpec ⟨"CMS_VERIFIED", some 5, none, none, none⟩ :=
  C6_progress_derivation ⟨"CMS_VERIFIED", some 5, none, none, none⟩
    (by decide) (by decide)

/-! ## POST /api/orders (lines 438-584) -/

/-- The submission payload fields the validation chain inspects.
Packages and delivery addresses only matter through presence and
emptiness. -/
structure OrderPayload where
  id : Option String
  clientId : Option String
  packages : Option (List Unit)
  deliveryAddresses : Option (List Unit)

inductive SubmitResponse where
  | badRequest (message : String)
  | accepted (status orderId mode estimatedCompletion statusEndpoint : String)
  | serverError (message : String)
deriving DecidableEq

/-- JavaScript truthiness of an optional string field (`!order?.id`):
absent or empty means falsy. -/
def jsTruthy (s : Option String) : Bool :=
  match s with
  | none => false
  | some v => !v.isEmpty

/-- The POST /api/orders handler: the four validation checks in source
order, each answering 400 with its field-specific message; then
persistence (`createOrder`, outcome abstracted as `persistOk`) followed
by the 202 Accepted response carrying status "accepted", the order id,
the ASYNCHRONOUS processing mode, the estimated completion and the
status endpoint.  The second component records whether the
`DISTRIBUTED_TRANSACTION_START` event was emitted (the saga is only
triggered past validation and persistence). -/
def submitOrder (persistOk : Bool) (order : OrderPayload) : SubmitResponse × Bool :=
  if !jsTruthy order.id then
    (.badRequest "order.id is required", false)
  else if !jsTruthy order.clientId then
    (.badRequest "clientId is required for Swift Logistics processing", false)
  else if order.packages.getD [] = [] then
    (.badRequest "At least one package is required", false)
  else if order.deliveryAddresses.getD [] = [] then
    (.badRequest "At least one delivery address is required", false)
  else if persistOk then
    (.accepted "accepted" (order.id.getD "") "ASYNCHRONOUS" "2-5 minutes"
      ("/api/orders/" ++ order.id.getD "" ++ "/status"), true)
  else
    (.serverError "Order acceptance failed", false)

/-- C9: the handler responds 400 with the field-specific message exactly
when the corresponding field is missing and all earlier checks passed
(checked in source order), no 400 path triggers the saga, and a payload
passing all four checks is answered 202 with status "accepted", the
order id, ASYNCHRONOUS mode, an estimated completion and the status
endpoint, assuming persistence succeeds. -/
theorem C9_submit_validation (persistOk : Bool) (o : OrderPayload) :
    ((submitOrder persistOk o).1 = .badRequest "order.id is required" ↔
      jsTruthy o.id = false) ∧
    ((submitOrder persistOk o).1 =
        .badRequest "clientId is required for Swift Logistics processing" ↔
      jsTruthy o.id = true ∧ jsTruthy o.clientId = false) ∧
    ((submitOrder persistOk o).1 = .badRequest "At least one package is required" ↔
      jsTruthy o.id = true ∧ jsTruthy o.clientId = true ∧ o.packages.getD [] = []) ∧
    ((submitOrder persistOk o).1 =
        .badRequest "At least one delivery address is required" ↔
      jsTruthy o.id = true ∧ jsTruthy o.clientId = true ∧ o.packages.getD [] ≠ [] ∧
      o.deliveryAddresses.getD [] = []) ∧
    (∀ msg, (submitOrder persistOk o).1 = .badRequest msg →
      (submitOrder persistOk o).2 = false) ∧
    (jsTruthy o.id = true → jsTruthy o.clientId = true → o.packages.getD [] ≠ [] →
      o.deliveryAddresses.getD [] ≠ [] → persistOk = true →
      submitOrder persistOk o =
        (.accepted "accepted" (o.id.getD "") "ASYNCHRONOUS" "2-5 minutes"
          ("/api/orders/" ++ o.id.getD "" ++ "/status"), true)) := by
  by_cases h1 : jsTruthy o.id <;>
    by_cases h2 : jsTruthy o.clientId <;>
    by_cases h3 : o.packages.getD [] = [] <;>
    by_cases h4 : o.deliveryAddresses.getD [] = [] <;>
    cases persistOk <;>
    simp_all [submitOrder]

/-- C9 (witness): a complete payload is accepted. -/
theorem C9_submit_validation_witness :
    submitOrder true ⟨some "ORD-1", some "CL-1", some [()], some [()]⟩ =
      (.accepted "accepted" ((some "ORD-1").getD "") "ASYNCHRONOUS" "2-5 minutes"
        ("/api/orders/" ++ (some "ORD-1").getD "" ++ "/status"), true) :=
  (C9_submit_validation true ⟨some "ORD-1", some "CL-1", some [()], some [()]⟩).2.2.2.2.2
    (by decide) (by decide) (by decide) (by decide) rfl

end SwiftTrack
